import Mathlib

/-!
Admin commands of the Cadence CLI (`tools/cli/adminCommands.go`).

A shallow embedding of `AdminShowWorkflow`, `AdminDeleteWorkflow` and
`AdminGetShardID`.  The commands are effectful Go functions: they call an
RPC endpoint, open a storage session, call history and execution stores and
print.  Here every call to a collaborator is a field of `Env`, the rows of
the storage cluster are an explicit world value of type `σ` that the delete
calls transform, and every call and every printed line is appended to a
chronological trace.  A run ends by returning, by `ErrorAndExit`, or by a
Go runtime panic.
-/

namespace Cadence

/-! ## Data -/

/-- A Go `error` value. -/
structure GoError where
  text : String
deriving DecidableEq, Repr

/-- The command line flags the three commands read. -/
inductive Flag where
  | Domain | DomainID | WorkflowID | RunID | TreeID | BranchID | OutputFilename
  | SkipErrorMode | HostFile | Port | Username | Password | Keyspace
  | NumberOfShards
deriving DecidableEq, Repr

/-- The `*cli.Context` of a command: `c.String`, `c.GlobalString`, `c.Int`,
`c.Bool` and `c.IsSet`.  An unset string flag reads as the empty string. -/
structure Context where
  str : Flag → String
  globalStr : Flag → String
  int : Flag → Int
  bool : Flag → Bool
  isSet : Flag → Bool

/-- Modelled from the spec: `shared.HistoryBranch` (the generated type is not
among the sources), section 3 "BranchInfo": a tree id, a branch id and the
ordered ancestor chain of (branch id, fork node id). -/
structure HistoryBranch where
  TreeID : String
  BranchID : String
  Ancestors : List (String × Int)
deriving DecidableEq, Repr

/-- The fields of `persistence.WorkflowExecutionInfo` the commands read. -/
structure WorkflowExecutionInfo where
  DomainID : String
  EventStoreVersion : Int
  BranchToken : List UInt8
deriving DecidableEq, Repr

/-- The `persistence.WorkflowMutableState` value filled by `json.Unmarshal`;
`ExecutionInfo` is a pointer and may be nil. -/
structure WorkflowMutableState where
  ExecutionInfo : Option WorkflowExecutionInfo
deriving DecidableEq, Repr

/-- The `admin.DescribeWorkflowExecutionResponse` of a describe call that
succeeded; both fields are optional and their getters return the empty string
when absent. -/
structure DescribeWorkflowExecutionResponse where
  ShardId : Option String
  MutableStateInDatabase : Option String
deriving DecidableEq, Repr

def DescribeWorkflowExecutionResponse.GetShardId
    (r : DescribeWorkflowExecutionResponse) : String :=
  r.ShardId.getD ""

def DescribeWorkflowExecutionResponse.GetMutableStateInDatabase
    (r : DescribeWorkflowExecutionResponse) : String :=
  r.MutableStateInDatabase.getD ""

/-- A `persistence.DataBlob`: one stored batch. -/
structure DataBlob where
  Encoding : String
  Data : List UInt8
deriving DecidableEq, Repr

/-- A `shared.HistoryEvent`: the event id and the rest of the record. -/
structure HistoryEvent where
  EventId : Int
  payload : String
deriving DecidableEq, Repr

/-- A `*gocql.ClusterConfig`, with the two fields `connectToCassandra` sets. -/
structure ClusterConfig where
  hosts : String
  port : Int
  keyspace : String
  SerialConsistency : String
  NumConns : Int
deriving DecidableEq, Repr

/-- A `*gocql.Session`. -/
structure Session where
  cluster : ClusterConfig
deriving DecidableEq, Repr

/-- The `persistence.DeleteWorkflowExecutionRequest` (and the key of the V1
history delete request). -/
structure DeleteWorkflowExecutionRequest where
  DomainID : String
  WorkflowID : String
  RunID : String
deriving DecidableEq, Repr

/-- Everything a run does that is visible outside the process, in the order
it happens.  A store call is recorded with the error it returned. -/
inductive Event where
  | DescribeWorkflowExecution (domain wid rid : String)
  | NewCassandraCluster (host : String) (port : Int) (user pw ksp : String)
  | CreateSession (cfg : ClusterConfig)
  | GetWorkflowExecutionHistory (domainID wid rid : String)
  | ReadHistoryBranch (treeID branchID : String)
  | DeleteHistoryBranch (branchInfo : HistoryBranch) (err : Option GoError)
  | DeleteWorkflowExecutionHistory (req : DeleteWorkflowExecutionRequest)
      (err : Option GoError)
  | DeleteWorkflowExecution (shardID : Int) (req : DeleteWorkflowExecutionRequest)
      (err : Option GoError)
  | DeleteWorkflowCurrentRow (shardID : Int) (req : DeleteWorkflowExecutionRequest)
      (err : Option GoError)
  | Println (text : String) (err : Option GoError)
  | PrettyPrintResponse (resp : DescribeWorkflowExecutionResponse)
  | PrettyPrintBranch (branchInfo : HistoryBranch)
  | ReadHistoryBranchEvents (branchToken nextPageToken : List UInt8)
  | PrintEventIds (ids : List Int)
  | PrintBatch (idx : Nat) (blobLen : Nat)
  | PrintJSON (json : String)
  | PrintTotal (batches : Nat) (totalSize : Int)
  | WriteFile (name data : String)
  | WorkflowIDToHistoryShard (wid : String) (numberOfShards : Int)
  | PrintShardID (wid : String) (shardID : Int)
deriving DecidableEq, Repr

/-! ## Runs -/

/-- How a run (or a part of one) ends. -/
inductive Outcome (α : Type) where
  | returned (val : α)
  | exited (msg : String) (err : Option GoError)
  | panicked (what : String)
deriving DecidableEq, Repr

/-- The state a run threads: the rows of the cluster and the trace so far. -/
structure St (σ : Type) where
  world : σ
  trace : List Event

/-- A command or a part of one. -/
def M (σ α : Type) : Type := St σ → Outcome α × St σ

def M.pure {σ α : Type} (a : α) : M σ α := fun s => (Outcome.returned a, s)

def M.bind {σ α β : Type} (m : M σ α) (f : α → M σ β) : M σ β := fun s =>
  match m s with
  | (Outcome.returned a, s1) => f a s1
  | (Outcome.exited msg err, s1) => (Outcome.exited msg err, s1)
  | (Outcome.panicked what, s1) => (Outcome.panicked what, s1)

instance {σ : Type} : Monad (M σ) where
  pure := M.pure
  bind := M.bind

/-- Append one event to the trace. -/
def emit {σ : Type} (e : Event) : M σ Unit := fun s =>
  (Outcome.returned (), { s with trace := s.trace ++ [e] })

/-- Modelled from the spec: `ErrorAndExit` (tools/cli/util.go is not among
the sources), section 6: "Any unresolved error terminates with a non-zero
status and a descriptive message on the error stream".  The run stops here
with the message and the error value it was given. -/
def ErrorAndExit {σ α : Type} (msg : String) (err : Option GoError) : M σ α := fun s =>
  (Outcome.exited msg err, s)

/-- A Go runtime panic (nil pointer dereference). -/
def goPanic {σ α : Type} (what : String) : M σ α := fun s =>
  (Outcome.panicked what, s)

/-- Modelled from the spec: `getRequiredOption` (tools/cli/util.go is not
among the sources), section 7: a missing required identifier is a fatal
configuration error. -/
def getRequiredOption {σ : Type} (c : Context) (f : Flag) : M σ String :=
  let value := c.str f
  if value.length = 0 then ErrorAndExit "Option is required" none
  else M.pure value

/-- Modelled from the spec: `getRequiredGlobalOption` (tools/cli/util.go is not
among the sources), section 7: a missing required identifier is a fatal
configuration error. -/
def getRequiredGlobalOption {σ : Type} (c : Context) (f : Flag) : M σ String :=
  let value := c.globalStr f
  if value.length = 0 then ErrorAndExit "Global option is required" none
  else M.pure value

/-- The collaborators of the commands.  Store calls and the RPC see the rows
`σ`; the delete calls return the rows they leave behind. -/
structure Env (σ : Type) where
  /-- Go `persistence.EventStoreVersionV2` -/
  EventStoreVersionV2 : Int
  /-- Go `adminClient.DescribeWorkflowExecution` -/
  DescribeWorkflowExecution :
    σ → String → String → String → Except GoError DescribeWorkflowExecutionResponse
  /-- Go `json.Unmarshal` into a `persistence.WorkflowMutableState` -/
  jsonUnmarshal : String → Except GoError WorkflowMutableState
  /-- Go `codec.NewThriftRWEncoder().Decode` into a `shared.HistoryBranch` -/
  Decode : List UInt8 → Except GoError HistoryBranch
  /-- Go `strconv.Atoi` -/
  Atoi : String → Except GoError Int
  /-- Go `cassandra.NewCassandraCluster`: a Go pair (config, error) -/
  NewCassandraCluster :
    String → Int → String → String → String → Int → Option ClusterConfig × Option GoError
  /-- Go `clusterCfg.CreateSession` -/
  CreateSession : ClusterConfig → Except GoError Session
  /-- Go `histV1.GetWorkflowExecutionHistory` on (domainID, workflowID, runID,
  FirstEventID, NextEventID, PageSize); the `History` of the response -/
  GetWorkflowExecutionHistory :
    σ → Session → String → String → String → Int → Int → Int →
      Except GoError (List DataBlob)
  /-- Go `histV2.ReadHistoryBranch` on (TreeID, BranchID, MinNodeID, MaxNodeID,
  PageSize); the `History` of the response -/
  ReadHistoryBranch :
    σ → Session → String → String → Int → Int → Int → Except GoError (List DataBlob)
  /-- Go `storeV2.ReadHistoryBranch` of the history V2 manager on (BranchToken,
  MinEventID, MaxEventID, PageSize, NextPageToken); the events and the next
  page token of the response -/
  ReadHistoryBranchEvents :
    σ → Session → List UInt8 → Int → Int → Int → List UInt8 →
      Except GoError (List HistoryEvent × List UInt8)
  /-- Go `histV2.DeleteHistoryBranch` -/
  DeleteHistoryBranch : σ → Session → HistoryBranch → Option GoError × σ
  /-- Go `histV1.DeleteWorkflowExecutionHistory` -/
  DeleteWorkflowExecutionHistory :
    σ → Session → DeleteWorkflowExecutionRequest → Option GoError × σ
  /-- Go `exeStore.DeleteWorkflowExecution` of the store built for a shard -/
  DeleteWorkflowExecution :
    σ → Session → Int → DeleteWorkflowExecutionRequest → Option GoError × σ
  /-- Go `exeStore.DeleteWorkflowCurrentRow` of the store built for a shard -/
  DeleteWorkflowCurrentRow :
    σ → Session → Int → DeleteWorkflowExecutionRequest → Option GoError × σ
  /-- Go `serializer.DeserializeBatchEvents` -/
  DeserializeBatchEvents : DataBlob → Except GoError (List HistoryEvent)
  /-- Go `json.Marshal` of one event -/
  jsonMarshalEvent : HistoryEvent → Except GoError String
  /-- Go `json.Marshal` of the event list -/
  jsonMarshalEvents : List HistoryEvent → Except GoError String
  /-- Go `ioutil.WriteFile` -/
  WriteFile : String → String → Option GoError
  /-- the hash of the shard router -/
  hash : String → Nat

/-- The constant `maxEventID` (line 43). -/
def maxEventID : Int := 9999

/-- Read the rows as they are now. -/
def getWorld {σ : Type} : M σ σ := fun s => (Outcome.returned s.world, s)

/-- Issue one delete call of a store: the rows become what the call leaves
and the call is recorded with the error it returned. -/
def storeCall {σ : Type} (op : σ → Option GoError × σ) (ev : Option GoError → Event) :
    M σ (Option GoError) := fun s =>
  (Outcome.returned (op s.world).1,
    { world := (op s.world).2, trace := s.trace ++ [ev (op s.world).1] })

/-! ## `AdminGetShardID` -/

/-- Modelled from the spec: `common.WorkflowIDToHistoryShard` (the `common`
package is not among the sources), section 4.6: a "pure, deterministic
hash-based partition function" over `[0, numberOfShards)`: the hash of the
workflow id reduced modulo the number of shards. -/
def WorkflowIDToHistoryShard (hash : String → Nat) (workflowID : String)
    (numberOfShards : Int) : Int :=
  (hash workflowID : Int) % numberOfShards

/-- Command `AdminGetShardID` (lines 369-379).  The `return` that follows
`ErrorAndExit` in the source is the end of the run here. -/
def AdminGetShardID {σ : Type} (env : Env σ) (c : Context) : M σ Unit := do
  let wid ← getRequiredOption c Flag.WorkflowID
  let numberOfShards := c.int Flag.NumberOfShards
  if numberOfShards ≤ 0 then
    ErrorAndExit "numberOfShards is required" none
  else do
    emit (Event.WorkflowIDToHistoryShard wid numberOfShards)
    let shardID := WorkflowIDToHistoryShard env.hash wid numberOfShards
    emit (Event.PrintShardID wid shardID)

/-! ## `connectToCassandra` and `describeMutableState` -/

/-- Function `connectToCassandra` (lines 300-321).  The two assignments to the cluster
configuration come before the error check, as in the source, so a nil
configuration panics there. -/
def connectToCassandra {σ : Type} (env : Env σ) (c : Context) : M σ Session := do
  let host ← getRequiredOption c Flag.HostFile
  if !c.isSet Flag.Port then
    ErrorAndExit "port is required" none
  let port := c.int Flag.Port
  let user := c.str Flag.Username
  let pw := c.str Flag.Password
  let ksp ← getRequiredOption c Flag.Keyspace
  emit (Event.NewCassandraCluster host port user pw ksp)
  match env.NewCassandraCluster host port user pw ksp 10 with
  | (none, _) => goPanic "nil pointer dereference: clusterCfg.SerialConsistency"
  | (some clusterCfg, err) =>
    let clusterCfg := { clusterCfg with SerialConsistency := "LocalSerial", NumConns := 20 }
    match err with
    | some e => ErrorAndExit "connect to Cassandra failed" (some e)
    | none => do
      emit (Event.CreateSession clusterCfg)
      match env.CreateSession clusterCfg with
      | Except.error e => ErrorAndExit "connect to Cassandra failed" (some e)
      | Except.ok session => pure session

/-- Function `describeMutableState` (lines 185-206).  Building the admin
client and the call context is left out; the RPC is the call recorded. -/
def describeMutableState {σ : Type} (env : Env σ) (c : Context) :
    M σ DescribeWorkflowExecutionResponse := do
  let domain ← getRequiredGlobalOption c Flag.Domain
  let wid ← getRequiredOption c Flag.WorkflowID
  let rid := c.str Flag.RunID
  emit (Event.DescribeWorkflowExecution domain wid rid)
  let rows ← getWorld
  match env.DescribeWorkflowExecution rows domain wid rid with
  | Except.error e => ErrorAndExit "Get workflow mutableState failed" (some e)
  | Except.ok resp => pure resp

/-! ## `AdminDescribeWorkflow` -/

/-- Command `AdminDescribeWorkflow` (lines 130-183).  The execution info is
read only behind the nil check of line 144. -/
def AdminDescribeWorkflow {σ : Type} (env : Env σ) (c : Context) : M σ Unit := do
  let resp ← describeMutableState env c
  let session ← connectToCassandra env c
  emit (Event.PrettyPrintResponse resp)
  let msStr := resp.GetMutableStateInDatabase
  match env.jsonUnmarshal msStr with
  | Except.error e => ErrorAndExit "json.Unmarshal err" (some e)
  | Except.ok ms =>
    match ms.ExecutionInfo with
    | none => pure ()
    | some info =>
      if info.EventStoreVersion = env.EventStoreVersionV2 then
        match env.Decode info.BranchToken with
        | Except.error e => ErrorAndExit "thriftrwEncoder.Decode err" (some e)
        | Except.ok branchInfo => do
          emit (Event.PrettyPrintBranch branchInfo)
          emit (Event.ReadHistoryBranchEvents info.BranchToken [])
          let rows ← getWorld
          match env.ReadHistoryBranchEvents rows session info.BranchToken 1 maxEventID 1000
              [] with
          | Except.error e => ErrorAndExit "ReadHistoryBranch err 1" (some e)
          | Except.ok (events, nextPageToken) => do
            emit (Event.PrintEventIds (events.map fun e => e.EventId))
            emit (Event.ReadHistoryBranchEvents info.BranchToken nextPageToken)
            let rows ← getWorld
            match env.ReadHistoryBranchEvents rows session info.BranchToken 1 maxEventID
                1000 nextPageToken with
            | Except.error e => ErrorAndExit "ReadHistoryBranch err 2" (some e)
            | Except.ok (events, _) =>
              emit (Event.PrintEventIds (events.map fun e => e.EventId))
      else pure ()

/-! ## `AdminDeleteWorkflow` -/

/-- The history step of `AdminDeleteWorkflow` (lines 224-260): the version
dispatch and the delete call on the history store it selects. -/
def deleteHistory {σ : Type} (env : Env σ) (session : Session) (skipError : Bool)
    (info : WorkflowExecutionInfo) (wid rid : String) : M σ Unit :=
  if info.EventStoreVersion = env.EventStoreVersionV2 then
    match env.Decode info.BranchToken with
    | Except.error e => ErrorAndExit "thriftrwEncoder.Decode err" (some e)
    | Except.ok branchInfo => do
      emit (Event.Println "deleting history events for ..." none)
      emit (Event.PrettyPrintBranch branchInfo)
      let err ← storeCall (fun rows => env.DeleteHistoryBranch rows session branchInfo)
        (Event.DeleteHistoryBranch branchInfo)
      match err with
      | some e =>
        if skipError then emit (Event.Println "failed to delete history, " (some e))
        else ErrorAndExit "DeleteHistoryBranch err" (some e)
      | none => pure ()
  else do
    let v1req : DeleteWorkflowExecutionRequest :=
      { DomainID := info.DomainID, WorkflowID := wid, RunID := rid }
    let err ← storeCall (fun rows => env.DeleteWorkflowExecutionHistory rows session v1req)
      (Event.DeleteWorkflowExecutionHistory v1req)
    match err with
    | some e =>
      if skipError then emit (Event.Println "failed to delete history, " (some e))
      else ErrorAndExit "DeleteWorkflowExecutionHistory err" (some e)
    | none => pure ()

/-- The execution-store steps of `AdminDeleteWorkflow` (lines 262-291): parse
the shard id, then delete the mutable-state row and the current-pointer row
through the store of that shard. -/
def deleteExecutionRows {σ : Type} (env : Env σ) (session : Session) (skipError : Bool)
    (shardID domainID wid rid : String) : M σ Unit :=
  match env.Atoi shardID with
  | Except.error e => ErrorAndExit "strconv.Atoi(shardID) err" (some e)
  | Except.ok shardIDInt => do
    let req : DeleteWorkflowExecutionRequest :=
      { DomainID := domainID, WorkflowID := wid, RunID := rid }
    let err ← storeCall (fun rows => env.DeleteWorkflowExecution rows session shardIDInt req)
      (Event.DeleteWorkflowExecution shardIDInt req)
    (match err with
      | some e =>
        if skipError then emit (Event.Println "delete mutableState row failed, " (some e))
        else ErrorAndExit "delete mutableState row failed" (some e)
      | none => pure ())
    emit (Event.Println "delete mutableState row successfully" none)
    let err ← storeCall (fun rows => env.DeleteWorkflowCurrentRow rows session shardIDInt req)
      (Event.DeleteWorkflowCurrentRow shardIDInt req)
    (match err with
      | some e =>
        if skipError then emit (Event.Println "delete current row failed, " (some e))
        else ErrorAndExit "delete current row failed" (some e)
      | none => pure ())
    emit (Event.Println "delete current row successfully" none)

/-- Command `AdminDeleteWorkflow` (lines 209-292): lines 210-223 read the flags, the
describe response and the mutable state and open the session; the history
step and the execution-store steps follow. -/
def AdminDeleteWorkflow {σ : Type} (env : Env σ) (c : Context) : M σ Unit := do
  let wid ← getRequiredOption c Flag.WorkflowID
  let rid := c.str Flag.RunID
  let resp ← describeMutableState env c
  let shardID := resp.GetShardId
  let msStr := resp.GetMutableStateInDatabase
  match env.jsonUnmarshal msStr with
  | Except.error e => ErrorAndExit "json.Unmarshal err" (some e)
  | Except.ok ms =>
  match ms.ExecutionInfo with
  | none => goPanic "nil pointer dereference: ms.ExecutionInfo.DomainID"
  | some info =>
  let domainID := info.DomainID
  let skipError := c.bool Flag.SkipErrorMode
  let session ← connectToCassandra env c
  deleteHistory env session skipError info wid rid
  deleteExecutionRows env session skipError shardID domainID wid rid

/-! ## `AdminShowWorkflow` -/

/-- The inner loop of `AdminShowWorkflow` (lines 108-114): print every event
of a batch as JSON. -/
def printEvents {σ : Type} (env : Env σ) : List HistoryEvent → M σ Unit
  | [] => pure ()
  | e :: es =>
    match env.jsonMarshalEvent e with
    | Except.error err => ErrorAndExit "json.Marshal err" (some err)
    | Except.ok jsonstr => do
      emit (Event.PrintJSON jsonstr)
      printEvents env es

/-- The outer loop of `AdminShowWorkflow` (lines 100-115) from batch index
`idx` on, with the accumulators `allEvents.Events` and `totalSize`. -/
def showBatches {σ : Type} (env : Env σ) :
    Nat → List DataBlob → List HistoryEvent → Int → M σ (List HistoryEvent × Int)
  | _, [], allEvents, totalSize => pure (allEvents, totalSize)
  | idx, b :: rest, allEvents, totalSize => do
    let totalSize := totalSize + (b.Data.length : Int)
    emit (Event.PrintBatch (idx + 1) b.Data.length)
    match env.DeserializeBatchEvents b with
    | Except.error err => ErrorAndExit "DeserializeBatchEvents err" (some err)
    | Except.ok historyBatch =>
      let allEvents := allEvents ++ historyBatch
      printEvents env historyBatch
      showBatches env (idx + 1) rest allEvents totalSize

/-- The second half of `AdminShowWorkflow` (lines 95-126), on the batches the
history store returned: the batch loop, the printed total and the export.
The value returned is the pair of the locals `allEvents.Events` and
`totalSize` at the end. -/
def showHistory {σ : Type} (env : Env σ) (outputFileName : String)
    (history : List DataBlob) : M σ (List HistoryEvent × Int) := do
  if history.length = 0 then
    ErrorAndExit "no events" none
  let (allEvents, totalSize) ← showBatches env 0 history [] 0
  emit (Event.PrintTotal history.length totalSize)
  (if outputFileName ≠ "" then
    match env.jsonMarshalEvents allEvents with
    | Except.error e => ErrorAndExit "Failed to serialize history data." (some e)
    | Except.ok data => do
      emit (Event.WriteFile outputFileName data)
      match env.WriteFile outputFileName data with
      | some e => ErrorAndExit "Failed to export history data file." (some e)
      | none => pure ()
  else pure ())
  pure (allEvents, totalSize)

/-- Command `AdminShowWorkflow` (lines 46-127): lines 47-93 read the flags, open the
session and read the batches from the history store the flags select; the
second half follows.  The Go function returns nothing; the value returned
here is the pair of its locals `allEvents.Events` and `totalSize` when it
ends. -/
def AdminShowWorkflow {σ : Type} (env : Env σ) (c : Context) :
    M σ (List HistoryEvent × Int) := do
  let domainID := c.str Flag.DomainID
  let wid := c.str Flag.WorkflowID
  let rid := c.str Flag.RunID
  let tid := c.str Flag.TreeID
  let bid := c.str Flag.BranchID
  let outputFileName := c.str Flag.OutputFilename
  let session ← connectToCassandra env c
  let history ←
    (if wid.length ≠ 0 then do
      emit (Event.GetWorkflowExecutionHistory domainID wid rid)
      let rows ← getWorld
      match env.GetWorkflowExecutionHistory rows session domainID wid rid 1 maxEventID
          maxEventID with
      | Except.error e => ErrorAndExit "GetWorkflowExecutionHistory err" (some e)
      | Except.ok h => pure h
    else if tid.length ≠ 0 then do
      emit (Event.ReadHistoryBranch tid bid)
      let rows ← getWorld
      match env.ReadHistoryBranch rows session tid bid 1 maxEventID maxEventID with
      | Except.error e => ErrorAndExit "ReadHistoryBranch err" (some e)
      | Except.ok h => pure h
    else
      ErrorAndExit
        "need to specify either WorkflowId/RunID for v1, or TreeID/BranchID for v2" none)
  showHistory env outputFileName history

/-! ## What a trace shows -/

/-- Start a command on the rows `w` with an empty trace. -/
def run {σ α : Type} (m : M σ α) (w : σ) : Outcome α × St σ := m ⟨w, []⟩

/-- The three delete steps of a teardown. -/
inductive Step where
  | history | snapshot | currentPointer
deriving DecidableEq, Repr

/-- The delete step an event is a store call of, with the error returned. -/
def deleteCall : Event → Option (Step × Option GoError)
  | Event.DeleteHistoryBranch _ err => some (Step.history, err)
  | Event.DeleteWorkflowExecutionHistory _ err => some (Step.history, err)
  | Event.DeleteWorkflowExecution _ _ err => some (Step.snapshot, err)
  | Event.DeleteWorkflowCurrentRow _ _ err => some (Step.currentPointer, err)
  | _ => none

/-- The delete calls of a trace, in order. -/
def deleteCalls (t : List Event) : List (Step × Option GoError) := t.filterMap deleteCall

/-- The calls to a history store (V1 or V2 delete) of a trace, in order. -/
def historyCalls (t : List Event) : List Event :=
  t.filter fun ev =>
    match ev with
    | Event.DeleteHistoryBranch _ _ => true
    | Event.DeleteWorkflowExecutionHistory _ _ => true
    | _ => false

/-- The shard an execution-store delete call was issued for. -/
def execCallShard : Event → Option Int
  | Event.DeleteWorkflowExecution n _ _ => some n
  | Event.DeleteWorkflowCurrentRow n _ _ => some n
  | _ => none

/-- The shards the execution-store delete calls of a trace were issued for. -/
def execShards (t : List Event) : List Int := t.filterMap execCallShard

/-- The step and error a printed failure line of the skip-error mode reports. -/
def failureLine : Event → Option (Step × GoError)
  | Event.Println text (some e) =>
    if text = "failed to delete history, " then some (Step.history, e)
    else if text = "delete mutableState row failed, " then some (Step.snapshot, e)
    else if text = "delete current row failed, " then some (Step.currentPointer, e)
    else none
  | _ => none

/-- The failure lines a trace printed, in order. -/
def failureLines (t : List Event) : List (Step × GoError) := t.filterMap failureLine

/-- The delete calls that returned an error, with the error. -/
def failedSteps (ds : List (Step × Option GoError)) : List (Step × GoError) :=
  ds.filterMap fun d => d.2.map fun e => (d.1, e)

/-- Is the event a read of a history store. -/
def isHistoryRead : Event → Bool
  | Event.GetWorkflowExecutionHistory _ _ _ => true
  | Event.ReadHistoryBranch _ _ => true
  | _ => false

/-- Is the event the printed total or the export of the events. -/
def isSummary : Event → Bool
  | Event.PrintTotal _ _ => true
  | Event.WriteFile _ _ => true
  | _ => false

/-- Is the event I/O on the storage cluster: opening the connection or a
store call. -/
def isStorageCall : Event → Bool
  | Event.NewCassandraCluster _ _ _ _ _ => true
  | Event.CreateSession _ => true
  | Event.GetWorkflowExecutionHistory _ _ _ => true
  | Event.ReadHistoryBranch _ _ => true
  | Event.DeleteHistoryBranch _ _ => true
  | Event.DeleteWorkflowExecutionHistory _ _ => true
  | Event.DeleteWorkflowExecution _ _ _ => true
  | Event.DeleteWorkflowCurrentRow _ _ _ => true
  | _ => false

/-- The describe call of a delete of the rows `w` answers `resp`, whose
mutable-state document unmarshals to a state with execution info `info`. -/
structure Snapshot {σ : Type} (env : Env σ) (c : Context) (w : σ)
    (resp : DescribeWorkflowExecutionResponse) (info : WorkflowExecutionInfo) : Prop where
  wid : (c.str Flag.WorkflowID).length ≠ 0
  domain : (c.globalStr Flag.Domain).length ≠ 0
  describe : env.DescribeWorkflowExecution w (c.globalStr Flag.Domain)
      (c.str Flag.WorkflowID) (c.str Flag.RunID) = Except.ok resp
  unmarshal : env.jsonUnmarshal resp.GetMutableStateInDatabase = Except.ok ⟨some info⟩

/-- The storage connection opens: the connection flags are given, the
cluster configuration `cfg` is built and the session `session` is created. -/
structure Connects {σ : Type} (env : Env σ) (c : Context) (cfg : ClusterConfig)
    (session : Session) : Prop where
  host : (c.str Flag.HostFile).length ≠ 0
  port : c.isSet Flag.Port = true
  keyspace : (c.str Flag.Keyspace).length ≠ 0
  cluster : env.NewCassandraCluster (c.str Flag.HostFile) (c.int Flag.Port)
      (c.str Flag.Username) (c.str Flag.Password) (c.str Flag.Keyspace) 10 = (some cfg, none)
  session : env.CreateSession { cfg with SerialConsistency := "LocalSerial", NumConns := 20 }
      = Except.ok session

/-- The two events of a connection that opens. -/
def connectEvents (c : Context) (cfg : ClusterConfig) : List Event :=
  [Event.NewCassandraCluster (c.str Flag.HostFile) (c.int Flag.Port) (c.str Flag.Username)
      (c.str Flag.Password) (c.str Flag.Keyspace),
   Event.CreateSession { cfg with SerialConsistency := "LocalSerial", NumConns := 20 }]

/-- The events of a delete up to the history step, when the describe call
answers and the connection opens. -/
def preludeEvents (c : Context) (cfg : ClusterConfig) : List Event :=
  Event.DescribeWorkflowExecution (c.globalStr Flag.Domain) (c.str Flag.WorkflowID)
    (c.str Flag.RunID) :: connectEvents c cfg

/-- The key of the delete requests of a run: the domain id of the snapshot,
the workflow id and the run id of the flags. -/
def requestOf (info : WorkflowExecutionInfo) (c : Context) : DeleteWorkflowExecutionRequest :=
  { DomainID := info.DomainID, WorkflowID := c.str Flag.WorkflowID,
    RunID := c.str Flag.RunID }

/-- What the history store that the version of the snapshot selects answers
to the delete, on the rows `w`, and the rows it leaves: the V2 store on the
branch `b`, or the V1 store on the key. -/
def historyAnswer {σ : Type} (env : Env σ) (c : Context) (session : Session)
    (info : WorkflowExecutionInfo) (b : HistoryBranch) (w : σ) : Option GoError × σ :=
  if info.EventStoreVersion = env.EventStoreVersionV2 then
    env.DeleteHistoryBranch w session b
  else env.DeleteWorkflowExecutionHistory w session (requestOf info c)

/-- The record of that history delete call in a trace, with the error it
returned. -/
def historyRecord {σ : Type} (env : Env σ) (c : Context) (info : WorkflowExecutionInfo)
    (b : HistoryBranch) (err : Option GoError) : Event :=
  if info.EventStoreVersion = env.EventStoreVersionV2 then Event.DeleteHistoryBranch b err
  else Event.DeleteWorkflowExecutionHistory (requestOf info c) err

/-- What the execution store of shard `n` answers to the delete of the
mutable-state row, on the rows the history delete left, and the rows it
leaves. -/
def snapshotAnswer {σ : Type} (env : Env σ) (c : Context) (session : Session)
    (info : WorkflowExecutionInfo) (b : HistoryBranch) (n : Int) (w : σ) :
    Option GoError × σ :=
  env.DeleteWorkflowExecution (historyAnswer env c session info b w).2 session n
    (requestOf info c)

/-- What the execution store of shard `n` answers to the delete of the
current-pointer row, on the rows the mutable-state row delete left, and the
rows it leaves. -/
def currentAnswer {σ : Type} (env : Env σ) (c : Context) (session : Session)
    (info : WorkflowExecutionInfo) (b : HistoryBranch) (n : Int) (w : σ) :
    Option GoError × σ :=
  env.DeleteWorkflowCurrentRow (snapshotAnswer env c session info b n w).2 session n
    (requestOf info c)

/-- The records of the delete calls of a trace, in order, each with its
arguments and the error it returned. -/
def storeCalls (t : List Event) : List Event :=
  t.filter fun ev => (deleteCall ev).isSome

/-- The events of the batches in batch order, as the spec words the read
result: `Deserialize(b1) ++ ... ++ Deserialize(bn)`. -/
def deserializedEvents {σ : Type} (env : Env σ) (history : List DataBlob) :
    List HistoryEvent :=
  (history.map fun b =>
    match env.DeserializeBatchEvents b with
    | Except.ok evs => evs
    | Except.error _ => []).flatten

/-- The sum of the byte lengths of the batches, as the spec words the total
size. -/
def totalBlobLen (history : List DataBlob) : Int :=
  (history.map fun b => (b.Data.length : Int)).sum

/-! ## A concrete cluster -/

/-- The rows of one execution key: is the history, the mutable-state row, the
current-pointer row present. -/
structure Rows where
  history : Bool
  snapshot : Bool
  currentPointer : Bool
deriving DecidableEq, Repr

/-- The value of a string of decimal digits, `none` when a character is not a
digit. -/
def digitsValue : List Char → Nat → Option Nat
  | [], acc => some acc
  | ch :: rest, acc =>
    if 48 ≤ ch.toNat ∧ ch.toNat ≤ 57 then digitsValue rest (10 * acc + (ch.toNat - 48))
    else none

/-- The behaviour of `strconv.Atoi` on a 64-bit platform: an optional sign,
then one or more decimal digits, the value within the range of `int`. -/
def demoAtoi (s : String) : Except GoError Int :=
  let (neg, ds) : Bool × List Char :=
    match s.data with
    | '-' :: r => (true, r)
    | '+' :: r => (false, r)
    | r => (false, r)
  match ds with
  | [] => Except.error ⟨"invalid syntax"⟩
  | _ =>
    match digitsValue ds 0 with
    | none => Except.error ⟨"invalid syntax"⟩
    | some n =>
      let v : Int := if neg then -(n : Int) else (n : Int)
      if v < -9223372036854775808 ∨ 9223372036854775807 < v then
        Except.error ⟨"value out of range"⟩
      else Except.ok v

/-- The branch the token of bytes 1, 2, 3 decodes to. -/
def demoBranch : HistoryBranch :=
  { TreeID := "t1", BranchID := "b1", Ancestors := [] }

/-- The mutable-state document of a V1 execution of domain `d1`. -/
def demoV1Doc : String :=
  "\x7b\"ExecutionInfo\":\x7b\"DomainID\":\"d1\",\"EventStoreVersion\":0\x7d\x7d"

/-- The mutable-state document of a V2 execution of domain `d1`, with the
branch token of bytes 1, 2, 3. -/
def demoV2Doc : String :=
  "\x7b\"ExecutionInfo\":\x7b\"DomainID\":\"d1\",\"EventStoreVersion\":2,\"BranchToken\":\"AQID\"\x7d\x7d"

/-- What `json.Unmarshal` makes of three mutable-state documents: the empty
object, which leaves the execution info nil, the V1 document and the V2
document. -/
def demoUnmarshal (s : String) : Except GoError WorkflowMutableState :=
  if s = "\x7b\x7d" then Except.ok ⟨none⟩
  else if s = demoV1Doc then
    Except.ok ⟨some { DomainID := "d1", EventStoreVersion := 0, BranchToken := [] }⟩
  else if s = demoV2Doc then
    Except.ok ⟨some { DomainID := "d1", EventStoreVersion := 2, BranchToken := [1, 2, 3] }⟩
  else Except.error ⟨"invalid character"⟩

/-- A cluster configuration as `cassandra.NewCassandraCluster` hands it out. -/
def demoConfig : ClusterConfig :=
  { hosts := "127.0.0.1", port := 9042, keyspace := "cadence", SerialConsistency := "",
    NumConns := 2 }

/-- A batch encoding: every byte of the data is the id of
one event. -/
def demoDeserialize (b : DataBlob) : Except GoError (List HistoryEvent) :=
  if b.Encoding = "ids" then
    Except.ok (b.Data.map fun x => { EventId := (x.toNat : Int), payload := "event" })
  else Except.error ⟨"unknown encoding"⟩

/-- Three stored batches holding the events 1..7. -/
def demoHistory : List DataBlob :=
  [⟨"ids", [1, 2, 3]⟩, ⟨"ids", [4, 5]⟩, ⟨"ids", [6, 7]⟩]

/-- A cluster whose describe call answers with the given shard id and
mutable-state document, and whose three delete calls fail or succeed as
told; a delete that succeeds removes its rows.  The hash is a stand-in for
the fingerprint of the shard router. -/
def demoEnv (shard : String) (msDoc : String) (failHistory failSnapshot failCurrent : Bool) :
    Env Rows where
  EventStoreVersionV2 := 2
  DescribeWorkflowExecution := fun _ _ _ _ =>
    Except.ok { ShardId := some shard, MutableStateInDatabase := some msDoc }
  jsonUnmarshal := demoUnmarshal
  Decode := fun token =>
    if token = [1, 2, 3] then Except.ok demoBranch else Except.error ⟨"decode failed"⟩
  Atoi := demoAtoi
  NewCassandraCluster := fun host port _ _ ksp _ =>
    (some { demoConfig with hosts := host, port := port, keyspace := ksp }, none)
  CreateSession := fun cfg => Except.ok ⟨cfg⟩
  GetWorkflowExecutionHistory := fun rows _ _ _ _ _ _ _ =>
    if rows.history then Except.ok demoHistory else Except.ok []
  ReadHistoryBranch := fun rows _ _ _ _ _ _ =>
    if rows.history then Except.ok demoHistory else Except.ok []
  ReadHistoryBranchEvents := fun _ _ _ _ _ _ _ => Except.ok ([], [])
  DeleteHistoryBranch := fun rows _ _ =>
    if failHistory then (some ⟨"history store timeout"⟩, rows)
    else (none, { rows with history := false })
  DeleteWorkflowExecutionHistory := fun rows _ _ =>
    if failHistory then (some ⟨"history store timeout"⟩, rows)
    else (none, { rows with history := false })
  DeleteWorkflowExecution := fun rows _ _ _ =>
    if failSnapshot then (some ⟨"execution store timeout"⟩, rows)
    else (none, { rows with snapshot := false })
  DeleteWorkflowCurrentRow := fun rows _ _ _ =>
    if failCurrent then (some ⟨"current row timeout"⟩, rows)
    else (none, { rows with currentPointer := false })
  DeserializeBatchEvents := demoDeserialize
  jsonMarshalEvent := fun e => Except.ok e.payload
  jsonMarshalEvents := fun es => Except.ok (String.join (es.map (fun e => e.payload)))
  WriteFile := fun _ _ => none
  hash := fun s => (s.data.map Char.toNat).sum

/-- All three rows of the key are present. -/
def demoRows : Rows := ⟨true, true, true⟩

/-- The cluster configuration the connection to the concrete cluster builds. -/
def demoCfg : ClusterConfig :=
  { demoConfig with hosts := "127.0.0.1", port := 9042, keyspace := "cadence" }

/-- The session the connection to the concrete cluster opens. -/
def demoSession : Session :=
  ⟨{ demoCfg with SerialConsistency := "LocalSerial", NumConns := 20 }⟩

/-- The describe response of the concrete cluster. -/
def demoResp (shard msDoc : String) : DescribeWorkflowExecutionResponse :=
  { ShardId := some shard, MutableStateInDatabase := some msDoc }

/-- The execution info of the V1 document. -/
def demoInfoV1 : WorkflowExecutionInfo :=
  { DomainID := "d1", EventStoreVersion := 0, BranchToken := [] }

/-- The execution info of the V2 document. -/
def demoInfoV2 : WorkflowExecutionInfo :=
  { DomainID := "d1", EventStoreVersion := 2, BranchToken := [1, 2, 3] }

/-- The flags of a delete of `wf-1`/`r1` in domain `dom`, with the skip-error
toggle as given. -/
def demoCtx (skip : Bool) : Context where
  str := fun f =>
    match f with
    | Flag.WorkflowID => "wf-1"
    | Flag.RunID => "r1"
    | Flag.HostFile => "127.0.0.1"
    | Flag.Keyspace => "cadence"
    | _ => ""
  globalStr := fun f =>
    match f with
    | Flag.Domain => "dom"
    | _ => ""
  int := fun f =>
    match f with
    | Flag.Port => 9042
    | Flag.NumberOfShards => 16
    | _ => 0
  bool := fun f =>
    match f with
    | Flag.SkipErrorMode => skip
    | _ => false
  isSet := fun f =>
    match f with
    | Flag.Port => true
    | _ => false

/-- The flags of `AdminShowWorkflow` for domain id `d1`, run `r1`, the given
workflow id and tree id, and no output file. -/
def showCtx (wid tid : String) : Context where
  str := fun f =>
    match f with
    | Flag.DomainID => "d1"
    | Flag.WorkflowID => wid
    | Flag.RunID => "r1"
    | Flag.TreeID => tid
    | Flag.HostFile => "127.0.0.1"
    | Flag.Keyspace => "cadence"
    | _ => ""
  globalStr := fun _ => ""
  int := fun f =>
    match f with
    | Flag.Port => 9042
    | _ => 0
  bool := fun _ => false
  isSet := fun f =>
    match f with
    | Flag.Port => true
    | _ => false

/-- The flags of `AdminGetShardID` for a workflow id and a number of shards. -/
def shardCtx (wid : String) (n : Int) : Context where
  str := fun f =>
    match f with
    | Flag.WorkflowID => wid
    | _ => ""
  globalStr := fun _ => ""
  int := fun f =>
    match f with
    | Flag.NumberOfShards => n
    | _ => 0
  bool := fun _ => false
  isSet := fun f =>
    match f with
    | Flag.NumberOfShards => true
    | _ => false

/-! ## Reduction lemmas -/

@[simp] theorem bind_apply {σ α β : Type} (m : M σ α) (f : α → M σ β) (s : St σ) :
    (m >>= f) s = M.bind m f s := rfl

@[simp] theorem pure_apply {σ α : Type} (a : α) (s : St σ) :
    (pure a : M σ α) s = (Outcome.returned a, s) := rfl


/-! ## `connectToCassandra` and `describeMutableState` -/

theorem connectToCassandra_ok {σ : Type} {env : Env σ} {c : Context} {cfg : ClusterConfig}
    {session : Session} (h : Connects env c cfg session) (s : St σ) :
    connectToCassandra env c s =
      (Outcome.returned session, ⟨s.world, s.trace ++ connectEvents c cfg⟩) := by
  simp [connectToCassandra, getRequiredOption, h.host, h.port, h.keyspace, h.cluster,
    h.session, M.bind, M.pure, emit, connectEvents]

/-- Whatever happens, opening the connection leaves the rows alone, issues no
store call, and does not end with the message of the shard id parse. -/
theorem connectToCassandra_frame {σ : Type} (env : Env σ) (c : Context) (s : St σ) :
    ∃ evs, (connectToCassandra env c s).2 = ⟨s.world, s.trace ++ evs⟩ ∧
      (∀ ev ∈ evs, deleteCall ev = none ∧ isHistoryRead ev = false) ∧
      (∀ e, (connectToCassandra env c s).1 ≠
        Outcome.exited "strconv.Atoi(shardID) err" e) := by
  by_cases h1 : (c.str Flag.HostFile).length = 0
  · refine ⟨[], ?_, ?_, ?_⟩ <;>
      simp [connectToCassandra, getRequiredOption, M.bind, M.pure, emit, ErrorAndExit, h1]
  by_cases h2 : c.isSet Flag.Port = true
  swap
  · refine ⟨[], ?_, ?_, ?_⟩ <;>
      simp [connectToCassandra, getRequiredOption, M.bind, M.pure, emit, ErrorAndExit, h1, h2]
  by_cases h3 : (c.str Flag.Keyspace).length = 0
  · refine ⟨[], ?_, ?_, ?_⟩ <;>
      simp [connectToCassandra, getRequiredOption, M.bind, M.pure, emit, ErrorAndExit, h1, h2,
        h3]
  rcases h4 : env.NewCassandraCluster (c.str Flag.HostFile) (c.int Flag.Port)
    (c.str Flag.Username) (c.str Flag.Password) (c.str Flag.Keyspace) 10 with ⟨_ | cfg, err⟩
  · refine ⟨[Event.NewCassandraCluster (c.str Flag.HostFile) (c.int Flag.Port)
      (c.str Flag.Username) (c.str Flag.Password) (c.str Flag.Keyspace)], ?_, ?_, ?_⟩ <;>
      simp [connectToCassandra, getRequiredOption, M.bind, M.pure, emit, ErrorAndExit,
        goPanic, deleteCall, isHistoryRead, h1, h2, h3, h4]
  cases err with
  | some e =>
    refine ⟨[Event.NewCassandraCluster (c.str Flag.HostFile) (c.int Flag.Port)
      (c.str Flag.Username) (c.str Flag.Password) (c.str Flag.Keyspace)], ?_, ?_, ?_⟩ <;>
      simp [connectToCassandra, getRequiredOption, M.bind, M.pure, emit, ErrorAndExit,
        goPanic, deleteCall, isHistoryRead, h1, h2, h3, h4]
  | none =>
    rcases h5 : env.CreateSession
      { cfg with SerialConsistency := "LocalSerial", NumConns := 20 } with e | session
    all_goals
      refine ⟨connectEvents c cfg, ?_, ?_, ?_⟩ <;>
      simp [connectToCassandra, getRequiredOption, M.bind, M.pure, emit, ErrorAndExit,
        goPanic, deleteCall, isHistoryRead, connectEvents, h1, h2, h3, h4, h5]

theorem describeMutableState_ok {σ : Type} {env : Env σ} {c : Context} {w : σ}
    {resp : DescribeWorkflowExecutionResponse} {info : WorkflowExecutionInfo}
    (h : Snapshot env c w resp info) (t : List Event) :
    describeMutableState env c ⟨w, t⟩ =
      (Outcome.returned resp, ⟨w, t ++ [Event.DescribeWorkflowExecution
        (c.globalStr Flag.Domain) (c.str Flag.WorkflowID) (c.str Flag.RunID)]⟩) := by
  simp [describeMutableState, getRequiredOption, getRequiredGlobalOption, h.wid, h.domain,
    h.describe, M.bind, M.pure, emit, getWorld]

/-- Whatever happens, the describe call leaves the rows alone and issues no
store call; when it returns, it returns what the admin endpoint answered. -/
theorem describeMutableState_frame {σ : Type} (env : Env σ) (c : Context) (s : St σ) :
    ∃ evs, (describeMutableState env c s).2 = ⟨s.world, s.trace ++ evs⟩ ∧
      (∀ ev ∈ evs, deleteCall ev = none) ∧
      (∀ e, (describeMutableState env c s).1 ≠
        Outcome.exited "strconv.Atoi(shardID) err" e) ∧
      (∀ resp, (describeMutableState env c s).1 = Outcome.returned resp →
        env.DescribeWorkflowExecution s.world (c.globalStr Flag.Domain)
          (c.str Flag.WorkflowID) (c.str Flag.RunID) = Except.ok resp) := by
  by_cases h1 : (c.globalStr Flag.Domain).length = 0
  · refine ⟨[], ?_, ?_, ?_, ?_⟩ <;>
      simp [describeMutableState, getRequiredOption, getRequiredGlobalOption, M.bind, M.pure,
        emit, ErrorAndExit, h1]
  by_cases h2 : (c.str Flag.WorkflowID).length = 0
  · refine ⟨[], ?_, ?_, ?_, ?_⟩ <;>
      simp [describeMutableState, getRequiredOption, getRequiredGlobalOption, M.bind, M.pure,
        emit, ErrorAndExit, h1, h2]
  rcases h3 : env.DescribeWorkflowExecution s.world (c.globalStr Flag.Domain)
    (c.str Flag.WorkflowID) (c.str Flag.RunID) with e | resp
  all_goals
    refine ⟨[Event.DescribeWorkflowExecution (c.globalStr Flag.Domain)
      (c.str Flag.WorkflowID) (c.str Flag.RunID)], ?_, ?_, ?_, ?_⟩ <;>
    simp [describeMutableState, getRequiredOption, getRequiredGlobalOption, M.bind, M.pure,
      emit, ErrorAndExit, getWorld, deleteCall, h1, h2, h3]

/-! ## `AdminDeleteWorkflow` -/

theorem deleteCalls_append (t u : List Event) :
    deleteCalls (t ++ u) = deleteCalls t ++ deleteCalls u := by
  simp [deleteCalls]

theorem deleteCalls_quiet {t : List Event} (h : ∀ ev ∈ t, deleteCall ev = none) :
    deleteCalls t = [] := by
  simpa [deleteCalls, List.filterMap_eq_nil_iff] using h

/-- With a snapshot and a session, a delete is its history step followed by
its execution-store steps, started after the describe call and the
connection. -/
theorem AdminDeleteWorkflow_reaches {σ : Type} {env : Env σ} {c : Context} {w : σ}
    {resp : DescribeWorkflowExecutionResponse} {info : WorkflowExecutionInfo}
    {cfg : ClusterConfig} {session : Session}
    (hsnap : Snapshot env c w resp info) (hconn : Connects env c cfg session) :
    run (AdminDeleteWorkflow env c) w =
      M.bind (deleteHistory env session (c.bool Flag.SkipErrorMode) info
          (c.str Flag.WorkflowID) (c.str Flag.RunID))
        (fun _ => deleteExecutionRows env session (c.bool Flag.SkipErrorMode) resp.GetShardId
          info.DomainID (c.str Flag.WorkflowID) (c.str Flag.RunID))
        ⟨w, preludeEvents c cfg⟩ := by
  simp [run, AdminDeleteWorkflow, M.bind, getRequiredOption, hsnap.wid, M.pure,
    describeMutableState_ok hsnap, hsnap.unmarshal, connectToCassandra_ok hconn,
    preludeEvents]

/-- Every delete either stops before the history step, with no store call
issued and the rows as they were, or is its history step followed by its
execution-store steps, started on the rows as they were after events that are
no store calls. -/
theorem AdminDeleteWorkflow_shape {σ : Type} (env : Env σ) (c : Context) (w : σ) :
    ((∀ ev ∈ (run (AdminDeleteWorkflow env c) w).2.trace, deleteCall ev = none) ∧
      (run (AdminDeleteWorkflow env c) w).2.world = w ∧
      (∀ v, (run (AdminDeleteWorkflow env c) w).1 ≠ Outcome.returned v) ∧
      (∀ e, (run (AdminDeleteWorkflow env c) w).1 ≠
        Outcome.exited "strconv.Atoi(shardID) err" e)) ∨
    ∃ resp info session pre,
      env.DescribeWorkflowExecution w (c.globalStr Flag.Domain) (c.str Flag.WorkflowID)
        (c.str Flag.RunID) = Except.ok resp ∧
      env.jsonUnmarshal resp.GetMutableStateInDatabase = Except.ok ⟨some info⟩ ∧
      (∀ ev ∈ pre, deleteCall ev = none) ∧
      run (AdminDeleteWorkflow env c) w =
        M.bind (deleteHistory env session (c.bool Flag.SkipErrorMode) info
            (c.str Flag.WorkflowID) (c.str Flag.RunID))
          (fun _ => deleteExecutionRows env session (c.bool Flag.SkipErrorMode)
            resp.GetShardId info.DomainID (c.str Flag.WorkflowID) (c.str Flag.RunID))
          ⟨w, pre⟩ := by
  by_cases hw : (c.str Flag.WorkflowID).length = 0
  · left
    simp [run, AdminDeleteWorkflow, M.bind, getRequiredOption, hw, ErrorAndExit]
  obtain ⟨evs1, hs1, hq1, hm1, hr1⟩ := describeMutableState_frame env c ⟨w, []⟩
  rcases hd : describeMutableState env c ⟨w, []⟩ with ⟨o1, s1⟩
  rw [hd] at hs1 hm1 hr1
  simp only [List.nil_append] at hs1
  subst hs1
  cases o1 with
  | exited msg err =>
    left
    have hm : ¬ msg = "strconv.Atoi(shardID) err" := fun h => hm1 err (by rw [h])
    simpa [run, AdminDeleteWorkflow, M.bind, getRequiredOption, hw, M.pure, hd] using
      ⟨hq1, hm⟩
  | panicked what =>
    left
    simpa [run, AdminDeleteWorkflow, M.bind, getRequiredOption, hw, M.pure, hd] using hq1
  | returned resp =>
    have hdesc := hr1 resp rfl
    rcases hu : env.jsonUnmarshal resp.GetMutableStateInDatabase with e | ms
    · left
      simpa [run, AdminDeleteWorkflow, M.bind, getRequiredOption, hw, M.pure, hd, hu,
        ErrorAndExit] using hq1
    obtain ⟨info⟩ := ms
    cases info with
    | none =>
      left
      simpa [run, AdminDeleteWorkflow, M.bind, getRequiredOption, hw, M.pure, hd, hu,
        goPanic] using hq1
    | some info =>
      obtain ⟨evs2, hs2, hq2, hm2⟩ := connectToCassandra_frame env c ⟨w, evs1⟩
      rcases hc : connectToCassandra env c ⟨w, evs1⟩ with ⟨o2, s2⟩
      rw [hc] at hs2 hm2
      simp only at hs2
      subst hs2
      have hq : ∀ ev ∈ evs1 ++ evs2, deleteCall ev = none := by
        intro ev hev
        rcases List.mem_append.1 hev with h | h
        · exact hq1 ev h
        · exact (hq2 ev h).1
      cases o2 with
      | exited msg err =>
        left
        have hm : ¬ msg = "strconv.Atoi(shardID) err" := fun h => hm2 err (by rw [h])
        refine ⟨?_, ?_, ?_, ?_⟩ <;>
          simp [run, AdminDeleteWorkflow, M.bind, getRequiredOption, hw, M.pure, hd, hu, hc]
        · simpa using hq
        · exact hm
      | panicked what =>
        left
        refine ⟨?_, ?_, ?_, ?_⟩ <;>
          simp [run, AdminDeleteWorkflow, M.bind, getRequiredOption, hw, M.pure, hd, hu, hc]
        simpa using hq
      | returned session =>
        right
        refine ⟨resp, info, session, evs1 ++ evs2, hdesc, hu, hq, ?_⟩
        simp [run, AdminDeleteWorkflow, M.bind, getRequiredOption, hw, M.pure, hd, hu, hc]

/-- The fail-fast discipline of the two steps after the connection: with the
skip-error toggle off, the delete calls are issued in the order history,
mutable-state row, current-pointer row, only the last call issued can have
returned an error, and then the run exits with that error. -/
theorem tail_fail_fast {σ : Type} (env : Env σ) (session : Session)
    (info : WorkflowExecutionInfo) (shard wid rid : String) (w : σ) (pre : List Event)
    (hpre : List.filterMap deleteCall pre = []) :
    ((deleteCalls (M.bind (deleteHistory env session false info wid rid)
        (fun _ => deleteExecutionRows env session false shard info.DomainID wid rid)
        ⟨w, pre⟩).2.trace).map Prod.fst <+:
          [Step.history, Step.snapshot, Step.currentPointer]) ∧
    (∀ d ∈ (deleteCalls (M.bind (deleteHistory env session false info wid rid)
        (fun _ => deleteExecutionRows env session false shard info.DomainID wid rid)
        ⟨w, pre⟩).2.trace).dropLast, d.2 = none) ∧
    (∀ e, (deleteCalls (M.bind (deleteHistory env session false info wid rid)
        (fun _ => deleteExecutionRows env session false shard info.DomainID wid rid)
        ⟨w, pre⟩).2.trace).getLast?.map Prod.snd = some (some e) →
      ∃ msg, (M.bind (deleteHistory env session false info wid rid)
        (fun _ => deleteExecutionRows env session false shard info.DomainID wid rid)
        ⟨w, pre⟩).1 = Outcome.exited msg (some e)) := by
  by_cases hv : info.EventStoreVersion = env.EventStoreVersionV2
  · rcases hb : env.Decode info.BranchToken with e | b
    · simp [*, deleteHistory, deleteExecutionRows, M.bind, emit, storeCall, ErrorAndExit,
        deleteCalls, deleteCall]
    · rcases h1 : env.DeleteHistoryBranch w session b with ⟨_ | e1, w1⟩
      · rcases hA : env.Atoi shard with e | n
        · simp [*, deleteHistory, deleteExecutionRows, M.bind, emit, storeCall, ErrorAndExit,
            deleteCalls, deleteCall]
        · rcases h2 : env.DeleteWorkflowExecution w1 session n ⟨info.DomainID, wid, rid⟩
            with ⟨_ | e2, w2⟩
          · rcases h3 : env.DeleteWorkflowCurrentRow w2 session n ⟨info.DomainID, wid, rid⟩
              with ⟨_ | e3, w3⟩ <;>
            simp [*, deleteHistory, deleteExecutionRows, M.bind, emit, storeCall,
              ErrorAndExit, deleteCalls, deleteCall]
          · simp [*, deleteHistory, deleteExecutionRows, M.bind, emit, storeCall,
              ErrorAndExit, deleteCalls, deleteCall]
      · simp [*, deleteHistory, deleteExecutionRows, M.bind, emit, storeCall, ErrorAndExit,
          deleteCalls, deleteCall]
  · rcases h1 : env.DeleteWorkflowExecutionHistory w session ⟨info.DomainID, wid, rid⟩
      with ⟨_ | e1, w1⟩
    · rcases hA : env.Atoi shard with e | n
      · simp [*, deleteHistory, deleteExecutionRows, M.bind, emit, storeCall, ErrorAndExit,
          deleteCalls, deleteCall]
      · rcases h2 : env.DeleteWorkflowExecution w1 session n ⟨info.DomainID, wid, rid⟩
          with ⟨_ | e2, w2⟩
        · rcases h3 : env.DeleteWorkflowCurrentRow w2 session n ⟨info.DomainID, wid, rid⟩
            with ⟨_ | e3, w3⟩ <;>
          simp [*, deleteHistory, deleteExecutionRows, M.bind, emit, storeCall,
            ErrorAndExit, deleteCalls, deleteCall]
        · simp [*, deleteHistory, deleteExecutionRows, M.bind, emit, storeCall,
            ErrorAndExit, deleteCalls, deleteCall]
    · simp [*, deleteHistory, deleteExecutionRows, M.bind, emit, storeCall, ErrorAndExit,
        deleteCalls, deleteCall]

theorem execShards_quiet {t : List Event} (h : ∀ ev ∈ t, deleteCall ev = none) :
    execShards t = [] := by
  simp only [execShards, List.filterMap_eq_nil_iff]
  intro ev hev
  have := h ev hev
  cases ev <;> simp_all [deleteCall, execCallShard]

/-- The shard discipline of the two steps after the connection: an
execution-store delete call is issued only for the integer the shard id
parses to, and a run that exits at the shard id parse has issued the history
delete and nothing else. -/
theorem tail_shard {σ : Type} (env : Env σ) (session : Session) (skip : Bool)
    (info : WorkflowExecutionInfo) (shard wid rid : String) (w : σ) (pre : List Event)
    (hpre : List.filterMap deleteCall pre = [])
    (hpre2 : List.filterMap execCallShard pre = []) :
    (∀ n ∈ execShards (M.bind (deleteHistory env session skip info wid rid)
        (fun _ => deleteExecutionRows env session skip shard info.DomainID wid rid)
        ⟨w, pre⟩).2.trace, env.Atoi shard = Except.ok n) ∧
    (∀ e, (M.bind (deleteHistory env session skip info wid rid)
        (fun _ => deleteExecutionRows env session skip shard info.DomainID wid rid)
        ⟨w, pre⟩).1 = Outcome.exited "strconv.Atoi(shardID) err" e →
      (deleteCalls (M.bind (deleteHistory env session skip info wid rid)
        (fun _ => deleteExecutionRows env session skip shard info.DomainID wid rid)
        ⟨w, pre⟩).2.trace).map Prod.fst = [Step.history] ∧
      ∃ err, env.Atoi shard = Except.error err ∧ e = some err) := by
  by_cases hv : info.EventStoreVersion = env.EventStoreVersionV2
  · rcases hb : env.Decode info.BranchToken with e | b
    · simp [*, deleteHistory, deleteExecutionRows, M.bind, emit, storeCall, ErrorAndExit,
        deleteCalls, deleteCall, execShards, execCallShard]
    · rcases h1 : env.DeleteHistoryBranch w session b with ⟨_ | e1, w1⟩ <;>
      rcases hA : env.Atoi shard with e | n
      any_goals
        cases skip <;>
        simp [*, deleteHistory, deleteExecutionRows, M.bind, emit, storeCall,
          ErrorAndExit, deleteCalls, deleteCall, execShards, execCallShard]
        done
      all_goals
        rcases h2 : env.DeleteWorkflowExecution w1 session n ⟨info.DomainID, wid, rid⟩
          with ⟨_ | e2, w2⟩ <;>
        rcases h3 : env.DeleteWorkflowCurrentRow w2 session n ⟨info.DomainID, wid, rid⟩
          with ⟨_ | e3, w3⟩ <;>
        cases skip <;>
        simp [*, deleteHistory, deleteExecutionRows, M.bind, emit, storeCall,
          ErrorAndExit, deleteCalls, deleteCall, execShards, execCallShard]
  · rcases h1 : env.DeleteWorkflowExecutionHistory w session ⟨info.DomainID, wid, rid⟩
      with ⟨_ | e1, w1⟩ <;>
    rcases hA : env.Atoi shard with e | n
    any_goals
      cases skip <;>
      simp [*, deleteHistory, deleteExecutionRows, M.bind, emit, storeCall,
        ErrorAndExit, deleteCalls, deleteCall, execShards, execCallShard]
      done
    all_goals
      rcases h2 : env.DeleteWorkflowExecution w1 session n ⟨info.DomainID, wid, rid⟩
        with ⟨_ | e2, w2⟩ <;>
      rcases h3 : env.DeleteWorkflowCurrentRow w2 session n ⟨info.DomainID, wid, rid⟩
        with ⟨_ | e3, w3⟩ <;>
      cases skip <;>
      simp [*, deleteHistory, deleteExecutionRows, M.bind, emit, storeCall,
        ErrorAndExit, deleteCalls, deleteCall, execShards, execCallShard]

/-- C1. With the skip-error toggle off, for every flags, cluster and rows:
the delete calls of `AdminDeleteWorkflow` are issued in the order history,
mutable-state row, current-pointer row (they form a prefix of that list); a
delete call that returned an error is the last delete call issued, and the run
then ends in `ErrorAndExit` carrying that same error value; when the
snapshot resolves, the connection opens and the shard id parses, a run whose
issued delete calls all succeeded has issued all three and returns.  And the
calls are the calls of the stores: with a snapshot and a session, the history
store is called on the rows as they were; if it answers an error `e` that call
is the only delete call, the rows are what it left and the run exits with `e`;
if it succeeds and the shard id parses to `n`, the execution store of shard
`n` is called for the mutable-state row on the rows the history delete left,
and likewise an error there ends the run after two calls; if that succeeds the
current-pointer row delete is called on the rows left, and the run exits with
its error or, when it succeeds too, returns with the rows the third call
left. -/
theorem AdminDeleteWorkflow_fail_fast {σ : Type} (env : Env σ) (c : Context) (w : σ)
    (hskip : c.bool Flag.SkipErrorMode = false) :
    ((deleteCalls (run (AdminDeleteWorkflow env c) w).2.trace).map Prod.fst <+:
        [Step.history, Step.snapshot, Step.currentPointer]) ∧
    (∀ d ∈ (deleteCalls (run (AdminDeleteWorkflow env c) w).2.trace).dropLast,
        d.2 = none) ∧
    (∀ e, (deleteCalls (run (AdminDeleteWorkflow env c) w).2.trace).getLast?.map Prod.snd
          = some (some e) →
        ∃ msg, (run (AdminDeleteWorkflow env c) w).1 = Outcome.exited msg (some e)) ∧
    (∀ resp info cfg session n, Snapshot env c w resp info → Connects env c cfg session →
        (info.EventStoreVersion = env.EventStoreVersionV2 →
          ∃ b, env.Decode info.BranchToken = Except.ok b) →
        env.Atoi resp.GetShardId = Except.ok n →
        (∀ d ∈ deleteCalls (run (AdminDeleteWorkflow env c) w).2.trace, d.2 = none) →
        (deleteCalls (run (AdminDeleteWorkflow env c) w).2.trace).map Prod.fst =
            [Step.history, Step.snapshot, Step.currentPointer] ∧
          (run (AdminDeleteWorkflow env c) w).1 = Outcome.returned ()) ∧
    (∀ resp info cfg session b, Snapshot env c w resp info → Connects env c cfg session →
        (info.EventStoreVersion = env.EventStoreVersionV2 →
          env.Decode info.BranchToken = Except.ok b) →
        ∀ e, (historyAnswer env c session info b w).1 = some e →
          storeCalls (run (AdminDeleteWorkflow env c) w).2.trace =
              [historyRecord env c info b (some e)] ∧
            (run (AdminDeleteWorkflow env c) w).2.world =
              (historyAnswer env c session info b w).2 ∧
            ∃ msg, (run (AdminDeleteWorkflow env c) w).1 = Outcome.exited msg (some e)) ∧
    (∀ resp info cfg session b n, Snapshot env c w resp info → Connects env c cfg session →
        (info.EventStoreVersion = env.EventStoreVersionV2 →
          env.Decode info.BranchToken = Except.ok b) →
        env.Atoi resp.GetShardId = Except.ok n →
        (historyAnswer env c session info b w).1 = none →
        (∀ e, (snapshotAnswer env c session info b n w).1 = some e →
          storeCalls (run (AdminDeleteWorkflow env c) w).2.trace =
              [historyRecord env c info b none,
                Event.DeleteWorkflowExecution n (requestOf info c) (some e)] ∧
            (run (AdminDeleteWorkflow env c) w).2.world =
              (snapshotAnswer env c session info b n w).2 ∧
            ∃ msg, (run (AdminDeleteWorkflow env c) w).1 = Outcome.exited msg (some e)) ∧
        ((snapshotAnswer env c session info b n w).1 = none →
          (∀ e, (currentAnswer env c session info b n w).1 = some e →
            storeCalls (run (AdminDeleteWorkflow env c) w).2.trace =
                [historyRecord env c info b none,
                  Event.DeleteWorkflowExecution n (requestOf info c) none,
                  Event.DeleteWorkflowCurrentRow n (requestOf info c) (some e)] ∧
              (run (AdminDeleteWorkflow env c) w).2.world =
                (currentAnswer env c session info b n w).2 ∧
              ∃ msg, (run (AdminDeleteWorkflow env c) w).1 = Outcome.exited msg (some e)) ∧
          ((currentAnswer env c session info b n w).1 = none →
            storeCalls (run (AdminDeleteWorkflow env c) w).2.trace =
                [historyRecord env c info b none,
                  Event.DeleteWorkflowExecution n (requestOf info c) none,
                  Event.DeleteWorkflowCurrentRow n (requestOf info c) none] ∧
              (run (AdminDeleteWorkflow env c) w).2.world =
                (currentAnswer env c session info b n w).2 ∧
              (run (AdminDeleteWorkflow env c) w).1 = Outcome.returned ()))) := by
  have h123 :
      ((deleteCalls (run (AdminDeleteWorkflow env c) w).2.trace).map Prod.fst <+:
          [Step.history, Step.snapshot, Step.currentPointer]) ∧
      (∀ d ∈ (deleteCalls (run (AdminDeleteWorkflow env c) w).2.trace).dropLast,
          d.2 = none) ∧
      (∀ e, (deleteCalls (run (AdminDeleteWorkflow env c) w).2.trace).getLast?.map Prod.snd
            = some (some e) →
          ∃ msg, (run (AdminDeleteWorkflow env c) w).1 = Outcome.exited msg (some e)) := by
    rcases AdminDeleteWorkflow_shape env c w with ⟨hq, -, -, -⟩ |
      ⟨resp, info, session, pre, -, -, hq, hrun⟩
    · rw [deleteCalls_quiet hq]
      simp
    · rw [hrun, hskip]
      exact tail_fail_fast env session info _ _ _ w pre (deleteCalls_quiet hq)
  refine ⟨h123.1, h123.2.1, h123.2.2, ?_, ?_, ?_⟩
  · intro resp info cfg session n hsnap hconn hdec hatoi
    rw [AdminDeleteWorkflow_reaches hsnap hconn, hskip]
    by_cases hv : info.EventStoreVersion = env.EventStoreVersionV2
    · obtain ⟨b, hb⟩ := hdec hv
      rcases h1 : env.DeleteHistoryBranch w session b with ⟨_ | e1, w1⟩ <;>
      rcases h2 : env.DeleteWorkflowExecution w1 session n
        ⟨info.DomainID, c.str Flag.WorkflowID, c.str Flag.RunID⟩ with ⟨_ | e2, w2⟩ <;>
      rcases h3 : env.DeleteWorkflowCurrentRow w2 session n
        ⟨info.DomainID, c.str Flag.WorkflowID, c.str Flag.RunID⟩ with ⟨_ | e3, w3⟩ <;>
      simp [deleteHistory, deleteExecutionRows, M.bind, hv, hb, emit, storeCall, hatoi,
        h1, h2, h3, deleteCalls, deleteCall, connectEvents, preludeEvents, ErrorAndExit]
    · rcases h1 : env.DeleteWorkflowExecutionHistory w session
        ⟨info.DomainID, c.str Flag.WorkflowID, c.str Flag.RunID⟩ with ⟨_ | e1, w1⟩ <;>
      rcases h2 : env.DeleteWorkflowExecution w1 session n
        ⟨info.DomainID, c.str Flag.WorkflowID, c.str Flag.RunID⟩ with ⟨_ | e2, w2⟩ <;>
      rcases h3 : env.DeleteWorkflowCurrentRow w2 session n
        ⟨info.DomainID, c.str Flag.WorkflowID, c.str Flag.RunID⟩ with ⟨_ | e3, w3⟩ <;>
      simp [deleteHistory, deleteExecutionRows, M.bind, hv, emit, storeCall, hatoi,
        h1, h2, h3, deleteCalls, deleteCall, connectEvents, preludeEvents, ErrorAndExit]
  · intro resp info cfg session b hsnap hconn hdec
    rw [AdminDeleteWorkflow_reaches hsnap hconn, hskip]
    by_cases hv : info.EventStoreVersion = env.EventStoreVersionV2
    · have hb := hdec hv
      rcases h1 : env.DeleteHistoryBranch w session b with ⟨_ | e1, w1⟩ <;>
      simp [deleteHistory, M.bind, hv, hb, emit, storeCall, h1, storeCalls, deleteCall,
        connectEvents, preludeEvents, ErrorAndExit, historyAnswer, historyRecord, requestOf]
    · rcases h1 : env.DeleteWorkflowExecutionHistory w session
        ⟨info.DomainID, c.str Flag.WorkflowID, c.str Flag.RunID⟩ with ⟨_ | e1, w1⟩ <;>
      simp [deleteHistory, M.bind, hv, emit, storeCall, h1, storeCalls, deleteCall,
        connectEvents, preludeEvents, ErrorAndExit, historyAnswer, historyRecord, requestOf]
  · intro resp info cfg session b n hsnap hconn hdec hatoi
    rw [AdminDeleteWorkflow_reaches hsnap hconn, hskip]
    by_cases hv : info.EventStoreVersion = env.EventStoreVersionV2
    · have hb := hdec hv
      rcases h1 : env.DeleteHistoryBranch w session b with ⟨_ | e1, w1⟩ <;>
      rcases h2 : env.DeleteWorkflowExecution w1 session n
        ⟨info.DomainID, c.str Flag.WorkflowID, c.str Flag.RunID⟩ with ⟨_ | e2, w2⟩ <;>
      rcases h3 : env.DeleteWorkflowCurrentRow w2 session n
        ⟨info.DomainID, c.str Flag.WorkflowID, c.str Flag.RunID⟩ with ⟨_ | e3, w3⟩ <;>
      simp [deleteHistory, deleteExecutionRows, M.bind, hv, hb, emit, storeCall, hatoi,
        h1, h2, h3, storeCalls, deleteCall, connectEvents, preludeEvents, ErrorAndExit,
        historyAnswer, snapshotAnswer, currentAnswer, historyRecord, requestOf]
    · rcases h1 : env.DeleteWorkflowExecutionHistory w session
        ⟨info.DomainID, c.str Flag.WorkflowID, c.str Flag.RunID⟩ with ⟨_ | e1, w1⟩ <;>
      rcases h2 : env.DeleteWorkflowExecution w1 session n
        ⟨info.DomainID, c.str Flag.WorkflowID, c.str Flag.RunID⟩ with ⟨_ | e2, w2⟩ <;>
      rcases h3 : env.DeleteWorkflowCurrentRow w2 session n
        ⟨info.DomainID, c.str Flag.WorkflowID, c.str Flag.RunID⟩ with ⟨_ | e3, w3⟩ <;>
      simp [deleteHistory, deleteExecutionRows, M.bind, hv, emit, storeCall, hatoi,
        h1, h2, h3, storeCalls, deleteCall, connectEvents, preludeEvents, ErrorAndExit,
        historyAnswer, snapshotAnswer, currentAnswer, historyRecord, requestOf]

/-- C2. With the skip-error toggle on, when the describe call answers with a
mutable state that unmarshals to an execution info, the connection opens, the
branch token decodes if the version is V2 and the shard id parses to `n`,
then whatever the three stores answer: the delete calls issued are exactly
the call of the history store the version selects, on the rows as they were,
the call of `DeleteWorkflowExecution` of shard `n` on the rows the history
delete left, and the call of `DeleteWorkflowCurrentRow` of shard `n` on the
rows the mutable-state row delete left, each once, in that order, each
recorded with the error the store answered; the rows at the end are the rows
the third call left; and the run returns. -/
theorem AdminDeleteWorkflow_skip_attempts_all {σ : Type} (env : Env σ) (c : Context) (w : σ)
    (resp : DescribeWorkflowExecutionResponse) (info : WorkflowExecutionInfo)
    (cfg : ClusterConfig) (session : Session) (b : HistoryBranch) (n : Int)
    (hskip : c.bool Flag.SkipErrorMode = true)
    (hsnap : Snapshot env c w resp info) (hconn : Connects env c cfg session)
    (hdec : info.EventStoreVersion = env.EventStoreVersionV2 →
      env.Decode info.BranchToken = Except.ok b)
    (hatoi : env.Atoi resp.GetShardId = Except.ok n) :
    (deleteCalls (run (AdminDeleteWorkflow env c) w).2.trace).map Prod.fst =
      [Step.history, Step.snapshot, Step.currentPointer] ∧
    (run (AdminDeleteWorkflow env c) w).1 = Outcome.returned () ∧
    storeCalls (run (AdminDeleteWorkflow env c) w).2.trace =
      [historyRecord env c info b (historyAnswer env c session info b w).1,
        Event.DeleteWorkflowExecution n (requestOf info c)
          (snapshotAnswer env c session info b n w).1,
        Event.DeleteWorkflowCurrentRow n (requestOf info c)
          (currentAnswer env c session info b n w).1] ∧
    (run (AdminDeleteWorkflow env c) w).2.world =
      (currentAnswer env c session info b n w).2 := by
  rw [AdminDeleteWorkflow_reaches hsnap hconn, hskip]
  by_cases hv : info.EventStoreVersion = env.EventStoreVersionV2
  · have hb := hdec hv
    rcases h1 : env.DeleteHistoryBranch w session b with ⟨_ | e1, w1⟩ <;>
    rcases h2 : env.DeleteWorkflowExecution w1 session n
      ⟨info.DomainID, c.str Flag.WorkflowID, c.str Flag.RunID⟩ with ⟨_ | e2, w2⟩ <;>
    rcases h3 : env.DeleteWorkflowCurrentRow w2 session n
      ⟨info.DomainID, c.str Flag.WorkflowID, c.str Flag.RunID⟩ with ⟨_ | e3, w3⟩ <;>
    simp [deleteHistory, deleteExecutionRows, M.bind, hv, hb, emit, storeCall, hatoi,
      h1, h2, h3, deleteCalls, storeCalls, deleteCall, connectEvents, preludeEvents,
      historyAnswer, snapshotAnswer, currentAnswer, historyRecord, requestOf]
  · rcases h1 : env.DeleteWorkflowExecutionHistory w session
      ⟨info.DomainID, c.str Flag.WorkflowID, c.str Flag.RunID⟩ with ⟨_ | e1, w1⟩ <;>
    rcases h2 : env.DeleteWorkflowExecution w1 session n
      ⟨info.DomainID, c.str Flag.WorkflowID, c.str Flag.RunID⟩ with ⟨_ | e2, w2⟩ <;>
    rcases h3 : env.DeleteWorkflowCurrentRow w2 session n
      ⟨info.DomainID, c.str Flag.WorkflowID, c.str Flag.RunID⟩ with ⟨_ | e3, w3⟩ <;>
    simp [deleteHistory, deleteExecutionRows, M.bind, hv, emit, storeCall, hatoi,
      h1, h2, h3, deleteCalls, storeCalls, deleteCall, connectEvents, preludeEvents,
      historyAnswer, snapshotAnswer, currentAnswer, historyRecord, requestOf]

/-- C3, as amended. With the skip-error toggle on and the run reaching the
delete steps (snapshot, connection, branch token if V2, shard id), no
aggregate outcome is built: the run returns normally whether or not a step
failed, and the failure lines it printed name exactly the delete steps whose
store call returned an error, each with that error, in the order of the
steps. -/
theorem AdminDeleteWorkflow_skip_prints_failures {σ : Type} (env : Env σ) (c : Context)
    (w : σ) (resp : DescribeWorkflowExecutionResponse) (info : WorkflowExecutionInfo)
    (cfg : ClusterConfig) (session : Session) (n : Int)
    (hskip : c.bool Flag.SkipErrorMode = true)
    (hsnap : Snapshot env c w resp info) (hconn : Connects env c cfg session)
    (hdec : info.EventStoreVersion = env.EventStoreVersionV2 →
      ∃ b, env.Decode info.BranchToken = Except.ok b)
    (hatoi : env.Atoi resp.GetShardId = Except.ok n) :
    (run (AdminDeleteWorkflow env c) w).1 = Outcome.returned () ∧
    failureLines (run (AdminDeleteWorkflow env c) w).2.trace =
      failedSteps (deleteCalls (run (AdminDeleteWorkflow env c) w).2.trace) := by
  rw [AdminDeleteWorkflow_reaches hsnap hconn, hskip]
  by_cases hv : info.EventStoreVersion = env.EventStoreVersionV2
  · obtain ⟨b, hb⟩ := hdec hv
    rcases h1 : env.DeleteHistoryBranch w session b with ⟨_ | e1, w1⟩ <;>
    rcases h2 : env.DeleteWorkflowExecution w1 session n
      ⟨info.DomainID, c.str Flag.WorkflowID, c.str Flag.RunID⟩ with ⟨_ | e2, w2⟩ <;>
    rcases h3 : env.DeleteWorkflowCurrentRow w2 session n
      ⟨info.DomainID, c.str Flag.WorkflowID, c.str Flag.RunID⟩ with ⟨_ | e3, w3⟩ <;>
    simp [deleteHistory, deleteExecutionRows, M.bind, hv, hb, emit, storeCall, hatoi,
      h1, h2, h3, deleteCalls, deleteCall, connectEvents, preludeEvents, failureLines,
      failureLine, failedSteps]
  · rcases h1 : env.DeleteWorkflowExecutionHistory w session
      ⟨info.DomainID, c.str Flag.WorkflowID, c.str Flag.RunID⟩ with ⟨_ | e1, w1⟩ <;>
    rcases h2 : env.DeleteWorkflowExecution w1 session n
      ⟨info.DomainID, c.str Flag.WorkflowID, c.str Flag.RunID⟩ with ⟨_ | e2, w2⟩ <;>
    rcases h3 : env.DeleteWorkflowCurrentRow w2 session n
      ⟨info.DomainID, c.str Flag.WorkflowID, c.str Flag.RunID⟩ with ⟨_ | e3, w3⟩ <;>
    simp [deleteHistory, deleteExecutionRows, M.bind, hv, emit, storeCall, hatoi,
      h1, h2, h3, deleteCalls, deleteCall, connectEvents, preludeEvents, failureLines,
      failureLine, failedSteps]

/-- C4. With a snapshot and a session, in either operating mode: if the
version is V2 and the branch token decodes to `b`, the only history store
call of the run is `DeleteHistoryBranch` with exactly `b`; if the version is
not V2, the only history store call is the V1 `DeleteWorkflowExecutionHistory`
with the key (domain id of the snapshot, workflow id, run id); if the version
is V2 and the branch token fails to decode, the run exits with the decode
error, no delete call of any kind is issued and the rows are unchanged. -/
theorem AdminDeleteWorkflow_version_dispatch {σ : Type} (env : Env σ) (c : Context) (w : σ)
    (resp : DescribeWorkflowExecutionResponse) (info : WorkflowExecutionInfo)
    (cfg : ClusterConfig) (session : Session)
    (hsnap : Snapshot env c w resp info) (hconn : Connects env c cfg session) :
    (info.EventStoreVersion = env.EventStoreVersionV2 →
      ∀ b, env.Decode info.BranchToken = Except.ok b →
        historyCalls (run (AdminDeleteWorkflow env c) w).2.trace =
          [Event.DeleteHistoryBranch b (env.DeleteHistoryBranch w session b).1]) ∧
    (info.EventStoreVersion ≠ env.EventStoreVersionV2 →
      historyCalls (run (AdminDeleteWorkflow env c) w).2.trace =
        [Event.DeleteWorkflowExecutionHistory
          ⟨info.DomainID, c.str Flag.WorkflowID, c.str Flag.RunID⟩
          (env.DeleteWorkflowExecutionHistory w session
            ⟨info.DomainID, c.str Flag.WorkflowID, c.str Flag.RunID⟩).1]) ∧
    (info.EventStoreVersion = env.EventStoreVersionV2 →
      ∀ e, env.Decode info.BranchToken = Except.error e →
        (run (AdminDeleteWorkflow env c) w).1 =
            Outcome.exited "thriftrwEncoder.Decode err" (some e) ∧
          deleteCalls (run (AdminDeleteWorkflow env c) w).2.trace = [] ∧
          (run (AdminDeleteWorkflow env c) w).2.world = w) := by
  rw [AdminDeleteWorkflow_reaches hsnap hconn]
  refine ⟨?_, ?_, ?_⟩
  · intro hv b hb
    rcases h1 : env.DeleteHistoryBranch w session b with ⟨_ | e1, w1⟩ <;>
    rcases hA : env.Atoi resp.GetShardId with e | n
    any_goals
      cases hs : c.bool Flag.SkipErrorMode <;>
      simp [deleteHistory, deleteExecutionRows, M.bind, hv, hb, emit, storeCall, hA, hs,
        h1, historyCalls, connectEvents, preludeEvents, ErrorAndExit]
      done
    all_goals
      rcases h2 : env.DeleteWorkflowExecution w1 session n
        ⟨info.DomainID, c.str Flag.WorkflowID, c.str Flag.RunID⟩ with ⟨_ | e2, w2⟩ <;>
      rcases h3 : env.DeleteWorkflowCurrentRow w2 session n
        ⟨info.DomainID, c.str Flag.WorkflowID, c.str Flag.RunID⟩ with ⟨_ | e3, w3⟩ <;>
      cases hs : c.bool Flag.SkipErrorMode <;>
      simp [deleteHistory, deleteExecutionRows, M.bind, hv, hb, emit, storeCall, hA, hs,
        h1, h2, h3, historyCalls, connectEvents, preludeEvents, ErrorAndExit]
  · intro hv
    rcases h1 : env.DeleteWorkflowExecutionHistory w session
      ⟨info.DomainID, c.str Flag.WorkflowID, c.str Flag.RunID⟩ with ⟨_ | e1, w1⟩ <;>
    rcases hA : env.Atoi resp.GetShardId with e | n
    any_goals
      cases hs : c.bool Flag.SkipErrorMode <;>
      simp [deleteHistory, deleteExecutionRows, M.bind, hv, emit, storeCall, hA, hs,
        h1, historyCalls, connectEvents, preludeEvents, ErrorAndExit]
      done
    all_goals
      rcases h2 : env.DeleteWorkflowExecution w1 session n
        ⟨info.DomainID, c.str Flag.WorkflowID, c.str Flag.RunID⟩ with ⟨_ | e2, w2⟩ <;>
      rcases h3 : env.DeleteWorkflowCurrentRow w2 session n
        ⟨info.DomainID, c.str Flag.WorkflowID, c.str Flag.RunID⟩ with ⟨_ | e3, w3⟩ <;>
      cases hs : c.bool Flag.SkipErrorMode <;>
      simp [deleteHistory, deleteExecutionRows, M.bind, hv, emit, storeCall, hA, hs,
        h1, h2, h3, historyCalls, connectEvents, preludeEvents, ErrorAndExit]
  · intro hv e he
    simp [deleteHistory, M.bind, hv, he, ErrorAndExit, deleteCalls, deleteCall,
      connectEvents, preludeEvents]

/-- C5, as amended. For every flags, cluster and rows: an execution-store
delete call (mutable-state row or current-pointer row) is issued only for the
integer the shard id of the describe response parses to; and a run that fails
because the shard id cannot be parsed has issued exactly one delete call, the
history delete, which comes before the parse. -/
theorem AdminDeleteWorkflow_shard_before_execution_rows {σ : Type} (env : Env σ)
    (c : Context) (w : σ) :
    (∀ n ∈ execShards (run (AdminDeleteWorkflow env c) w).2.trace,
      ∃ resp, env.DescribeWorkflowExecution w (c.globalStr Flag.Domain)
          (c.str Flag.WorkflowID) (c.str Flag.RunID) = Except.ok resp ∧
        env.Atoi resp.GetShardId = Except.ok n) ∧
    (∀ e, (run (AdminDeleteWorkflow env c) w).1 =
        Outcome.exited "strconv.Atoi(shardID) err" e →
      (deleteCalls (run (AdminDeleteWorkflow env c) w).2.trace).map Prod.fst =
          [Step.history] ∧
        ∃ resp err, env.DescribeWorkflowExecution w (c.globalStr Flag.Domain)
            (c.str Flag.WorkflowID) (c.str Flag.RunID) = Except.ok resp ∧
          env.Atoi resp.GetShardId = Except.error err ∧ e = some err) := by
  rcases AdminDeleteWorkflow_shape env c w with ⟨hq, -, -, hne⟩ |
    ⟨resp, info, session, pre, hdesc, -, hq, hrun⟩
  · refine ⟨?_, fun e he => absurd he (hne e)⟩
    rw [execShards_quiet hq]
    simp
  · have ht := tail_shard env session (c.bool Flag.SkipErrorMode) info resp.GetShardId
      (c.str Flag.WorkflowID) (c.str Flag.RunID) w pre (deleteCalls_quiet hq)
      (execShards_quiet hq)
    rw [hrun]
    refine ⟨fun n hn => ⟨resp, hdesc, ht.1 n hn⟩, fun e he => ?_⟩
    obtain ⟨h1, err, h2, h3⟩ := ht.2 e he
    exact ⟨h1, resp, err, hdesc, h2, h3⟩

/-- When the mutable-state document unmarshals to a state without execution
info, the delete panics at the read of the domain id, right after the
describe call. -/
theorem AdminDeleteWorkflow_nil_execution_info {σ : Type} (env : Env σ) (c : Context)
    (w : σ) (resp : DescribeWorkflowExecutionResponse)
    (hw : (c.str Flag.WorkflowID).length ≠ 0) (hd : (c.globalStr Flag.Domain).length ≠ 0)
    (hdesc : env.DescribeWorkflowExecution w (c.globalStr Flag.Domain)
      (c.str Flag.WorkflowID) (c.str Flag.RunID) = Except.ok resp)
    (hu : env.jsonUnmarshal resp.GetMutableStateInDatabase = Except.ok ⟨none⟩) :
    run (AdminDeleteWorkflow env c) w =
      (Outcome.panicked "nil pointer dereference: ms.ExecutionInfo.DomainID",
        ⟨w, [Event.DescribeWorkflowExecution (c.globalStr Flag.Domain)
          (c.str Flag.WorkflowID) (c.str Flag.RunID)]⟩) := by
  simp [run, AdminDeleteWorkflow, describeMutableState, getRequiredOption,
    getRequiredGlobalOption, M.bind, M.pure, emit, getWorld, goPanic, hw, hd, hdesc, hu]

/-- On a mutable state without execution info `AdminDescribeWorkflow` skips the
branch that reads it and returns. -/
theorem AdminDescribeWorkflow_nil_execution_info {σ : Type} (env : Env σ) (c : Context)
    (w : σ) (resp : DescribeWorkflowExecutionResponse) (cfg : ClusterConfig)
    (session : Session)
    (hw : (c.str Flag.WorkflowID).length ≠ 0) (hd : (c.globalStr Flag.Domain).length ≠ 0)
    (hdesc : env.DescribeWorkflowExecution w (c.globalStr Flag.Domain)
      (c.str Flag.WorkflowID) (c.str Flag.RunID) = Except.ok resp)
    (hconn : Connects env c cfg session)
    (hu : env.jsonUnmarshal resp.GetMutableStateInDatabase = Except.ok ⟨none⟩) :
    (run (AdminDescribeWorkflow env c) w).1 = Outcome.returned () := by
  simp [run, AdminDescribeWorkflow, describeMutableState, getRequiredOption,
    getRequiredGlobalOption, M.bind, M.pure, emit, getWorld, hw, hd, hdesc, hu,
    connectToCassandra_ok hconn]

/-- The witness of C1, two runs in fail-fast mode.  When the mutable-state row
delete fails, the history store and the execution store are called, in that
order, the second call is recorded with the error the store answered, the
history rows are gone and the other rows remain, and the run exits carrying
that error.  When the history delete fails, the history store is the only
store called, all rows remain, and the run exits carrying the error of the
history store. -/
theorem AdminDeleteWorkflow_fail_fast_witness :
    (demoCtx false).bool Flag.SkipErrorMode = false ∧
    deleteCalls (run (AdminDeleteWorkflow (demoEnv "3" demoV1Doc false true false)
        (demoCtx false)) demoRows).2.trace =
      [(Step.history, none), (Step.snapshot, some ⟨"execution store timeout"⟩)] ∧
    (∃ msg, (run (AdminDeleteWorkflow (demoEnv "3" demoV1Doc false true false)
        (demoCtx false)) demoRows).1 =
      Outcome.exited msg (some ⟨"execution store timeout"⟩)) ∧
    storeCalls (run (AdminDeleteWorkflow (demoEnv "3" demoV1Doc false true false)
        (demoCtx false)) demoRows).2.trace =
      [Event.DeleteWorkflowExecutionHistory ⟨"d1", "wf-1", "r1"⟩ none,
        Event.DeleteWorkflowExecution 3 ⟨"d1", "wf-1", "r1"⟩
          (some ⟨"execution store timeout"⟩)] ∧
    (run (AdminDeleteWorkflow (demoEnv "3" demoV1Doc false true false)
        (demoCtx false)) demoRows).2.world = ⟨false, true, true⟩ ∧
    storeCalls (run (AdminDeleteWorkflow (demoEnv "3" demoV1Doc true false false)
        (demoCtx false)) demoRows).2.trace =
      [Event.DeleteWorkflowExecutionHistory ⟨"d1", "wf-1", "r1"⟩
        (some ⟨"history store timeout"⟩)] ∧
    (run (AdminDeleteWorkflow (demoEnv "3" demoV1Doc true false false)
        (demoCtx false)) demoRows).2.world = ⟨true, true, true⟩ ∧
    (∃ msg, (run (AdminDeleteWorkflow (demoEnv "3" demoV1Doc true false false)
        (demoCtx false)) demoRows).1 =
      Outcome.exited msg (some ⟨"history store timeout"⟩)) :=
  have h := AdminDeleteWorkflow_fail_fast (demoEnv "3" demoV1Doc false true false)
    (demoCtx false) demoRows rfl
  have h6 := (h.2.2.2.2.2 (demoResp "3" demoV1Doc) demoInfoV1 demoCfg demoSession demoBranch
    3 ⟨by decide, by decide, rfl, rfl⟩ ⟨by decide, rfl, by decide, rfl, rfl⟩
    (fun hv => absurd hv (by decide)) rfl rfl).1 ⟨"execution store timeout"⟩ rfl
  have h5 := (AdminDeleteWorkflow_fail_fast (demoEnv "3" demoV1Doc true false false)
    (demoCtx false) demoRows rfl).2.2.2.2.1 (demoResp "3" demoV1Doc) demoInfoV1 demoCfg
    demoSession demoBranch ⟨by decide, by decide, rfl, rfl⟩
    ⟨by decide, rfl, by decide, rfl, rfl⟩ (fun hv => absurd hv (by decide))
    ⟨"history store timeout"⟩ rfl
  ⟨rfl, by decide, h.2.2.1 ⟨"execution store timeout"⟩ (by decide), h6.1, h6.2.1,
    h5.1, h5.2.1, h5.2.2⟩

/-- The witness of C2: a V2 execution whose mutable-state row delete fails in
skip-error mode.  All three stores are called, the failure is recorded on the
second call, the history and current-pointer rows are gone and the
mutable-state row remains. -/
theorem AdminDeleteWorkflow_skip_attempts_all_witness :
    Snapshot (demoEnv "3" demoV2Doc false true false) (demoCtx true) demoRows
      (demoResp "3" demoV2Doc) demoInfoV2 ∧
    Connects (demoEnv "3" demoV2Doc false true false) (demoCtx true) demoCfg demoSession ∧
    (deleteCalls (run (AdminDeleteWorkflow (demoEnv "3" demoV2Doc false true false)
        (demoCtx true)) demoRows).2.trace).map Prod.fst =
      [Step.history, Step.snapshot, Step.currentPointer] ∧
    (run (AdminDeleteWorkflow (demoEnv "3" demoV2Doc false true false)
        (demoCtx true)) demoRows).1 = Outcome.returned () ∧
    storeCalls (run (AdminDeleteWorkflow (demoEnv "3" demoV2Doc false true false)
        (demoCtx true)) demoRows).2.trace =
      [Event.DeleteHistoryBranch demoBranch none,
        Event.DeleteWorkflowExecution 3 ⟨"d1", "wf-1", "r1"⟩
          (some ⟨"execution store timeout"⟩),
        Event.DeleteWorkflowCurrentRow 3 ⟨"d1", "wf-1", "r1"⟩ none] ∧
    (run (AdminDeleteWorkflow (demoEnv "3" demoV2Doc false true false)
        (demoCtx true)) demoRows).2.world = ⟨false, true, false⟩ :=
  have h := AdminDeleteWorkflow_skip_attempts_all (demoEnv "3" demoV2Doc false true false)
    (demoCtx true) demoRows (demoResp "3" demoV2Doc) demoInfoV2 demoCfg demoSession
    demoBranch 3 rfl ⟨by decide, by decide, rfl, rfl⟩ ⟨by decide, rfl, by decide, rfl, rfl⟩
    (fun _ => rfl) rfl
  ⟨⟨by decide, by decide, rfl, rfl⟩, ⟨by decide, rfl, by decide, rfl, rfl⟩,
    h.1, h.2.1, h.2.2.1, h.2.2.2⟩

/-- The counterexample to C3: in skip-error mode with only the history delete
failing, all three delete calls are issued, the mutable-state and
current-pointer rows are gone, and the run returns normally: the failed step
is carried by no result. -/
theorem AdminDeleteWorkflow_skip_returns_despite_failure :
    (demoCtx true).bool Flag.SkipErrorMode = true ∧
    deleteCalls (run (AdminDeleteWorkflow (demoEnv "3" demoV1Doc true false false)
        (demoCtx true)) demoRows).2.trace =
      [(Step.history, some ⟨"history store timeout"⟩), (Step.snapshot, none),
        (Step.currentPointer, none)] ∧
    (run (AdminDeleteWorkflow (demoEnv "3" demoV1Doc true false false)
        (demoCtx true)) demoRows).1 = Outcome.returned () ∧
    (run (AdminDeleteWorkflow (demoEnv "3" demoV1Doc true false false)
        (demoCtx true)) demoRows).2.world = ⟨true, false, false⟩ := by
  decide

/-- The witness of C3 as amended: the same run prints one failure line, for
the history step. -/
theorem AdminDeleteWorkflow_skip_prints_failures_witness :
    (run (AdminDeleteWorkflow (demoEnv "3" demoV1Doc true false false)
        (demoCtx true)) demoRows).1 = Outcome.returned () ∧
    failureLines (run (AdminDeleteWorkflow (demoEnv "3" demoV1Doc true false false)
        (demoCtx true)) demoRows).2.trace =
      failedSteps (deleteCalls (run (AdminDeleteWorkflow
        (demoEnv "3" demoV1Doc true false false) (demoCtx true)) demoRows).2.trace) ∧
    failureLines (run (AdminDeleteWorkflow (demoEnv "3" demoV1Doc true false false)
        (demoCtx true)) demoRows).2.trace = [(Step.history, ⟨"history store timeout"⟩)] :=
  ⟨(AdminDeleteWorkflow_skip_prints_failures (demoEnv "3" demoV1Doc true false false)
      (demoCtx true) demoRows (demoResp "3" demoV1Doc) demoInfoV1 demoCfg demoSession 3 rfl
      ⟨by decide, by decide, rfl, rfl⟩ ⟨by decide, rfl, by decide, rfl, rfl⟩
      (fun h => absurd h (by decide)) rfl).1,
    (AdminDeleteWorkflow_skip_prints_failures (demoEnv "3" demoV1Doc true false false)
      (demoCtx true) demoRows (demoResp "3" demoV1Doc) demoInfoV1 demoCfg demoSession 3 rfl
      ⟨by decide, by decide, rfl, rfl⟩ ⟨by decide, rfl, by decide, rfl, rfl⟩
      (fun h => absurd h (by decide)) rfl).2,
    by decide⟩

/-- The witness of C4: a V2 execution is dispatched to `DeleteHistoryBranch`
with the decoded branch. -/
theorem AdminDeleteWorkflow_version_dispatch_witness :
    historyCalls (run (AdminDeleteWorkflow (demoEnv "3" demoV2Doc false false false)
        (demoCtx false)) demoRows).2.trace =
      [Event.DeleteHistoryBranch demoBranch none] :=
  (AdminDeleteWorkflow_version_dispatch (demoEnv "3" demoV2Doc false false false)
    (demoCtx false) demoRows (demoResp "3" demoV2Doc) demoInfoV2 demoCfg demoSession
    ⟨by decide, by decide, rfl, rfl⟩ ⟨by decide, rfl, by decide, rfl, rfl⟩).1 rfl
    demoBranch rfl

/-- The counterexample to C5: the shard id `abc` does not parse; the run fails
at the parse after the history delete has been issued and has removed the
history rows. -/
theorem AdminDeleteWorkflow_history_deleted_before_shard_parse :
    (run (AdminDeleteWorkflow (demoEnv "abc" demoV1Doc false false false)
        (demoCtx false)) demoRows).1 =
      Outcome.exited "strconv.Atoi(shardID) err" (some ⟨"invalid syntax"⟩) ∧
    deleteCalls (run (AdminDeleteWorkflow (demoEnv "abc" demoV1Doc false false false)
        (demoCtx false)) demoRows).2.trace = [(Step.history, none)] ∧
    (run (AdminDeleteWorkflow (demoEnv "abc" demoV1Doc false false false)
        (demoCtx false)) demoRows).2.world = ⟨false, true, true⟩ := by
  decide

/-- C10, the failing input. The describe response carries the mutable-state
document `{}`; it unmarshals without error to a state whose execution info is
nil, and `AdminDeleteWorkflow` panics on the read of `ms.ExecutionInfo.DomainID`:
it neither reaches the version dispatch nor exits with a reported error.  On
the same response `AdminDescribeWorkflow`, which guards the read, returns. -/
theorem AdminDeleteWorkflow_panics_on_missing_execution_info :
    (demoEnv "3" "\x7b\x7d" false false false).jsonUnmarshal
        (demoResp "3" "\x7b\x7d").GetMutableStateInDatabase = Except.ok ⟨none⟩ ∧
    (run (AdminDeleteWorkflow (demoEnv "3" "\x7b\x7d" false false false)
        (demoCtx false)) demoRows).1 =
      Outcome.panicked "nil pointer dereference: ms.ExecutionInfo.DomainID" ∧
    (run (AdminDeleteWorkflow (demoEnv "3" "\x7b\x7d" false false false)
        (demoCtx false)) demoRows).2.trace =
      [Event.DescribeWorkflowExecution "dom" "wf-1" "r1"] ∧
    (run (AdminDescribeWorkflow (demoEnv "3" "\x7b\x7d" false false false)
        (demoCtx false)) demoRows).1 = Outcome.returned () :=
  ⟨rfl, by decide, by decide, by decide⟩

/-! ## `AdminShowWorkflow` -/

theorem deserializedEvents_cons {σ : Type} (env : Env σ) (b : DataBlob)
    (rest : List DataBlob) (evs : List HistoryEvent)
    (h : env.DeserializeBatchEvents b = Except.ok evs) :
    deserializedEvents env (b :: rest) = evs ++ deserializedEvents env rest := by
  simp [deserializedEvents, h]

theorem totalBlobLen_cons (b : DataBlob) (rest : List DataBlob) :
    totalBlobLen (b :: rest) = (b.Data.length : Int) + totalBlobLen rest := by
  simp [totalBlobLen]

/-- Printing events that all marshal returns and only appends to the trace. -/
theorem printEvents_ok {σ : Type} (env : Env σ) :
    ∀ (es : List HistoryEvent) (s : St σ),
      (∀ e ∈ es, ∃ js, env.jsonMarshalEvent e = Except.ok js) →
      ∃ evs, printEvents env es s = (Outcome.returned (), ⟨s.world, s.trace ++ evs⟩)
  | [], s, _ => ⟨[], by simp [printEvents]⟩
  | e :: es, s, h => by
    obtain ⟨js, hjs⟩ := h e (List.mem_cons_self _ _)
    obtain ⟨evs, h1⟩ := printEvents_ok env es ⟨s.world, s.trace ++ [Event.PrintJSON js]⟩
      (fun e' he' => h e' (List.mem_cons_of_mem _ he'))
    exact ⟨Event.PrintJSON js :: evs, by simp [printEvents, hjs, M.bind, emit, h1]⟩

/-- The batch loop over batches that all deserialize, with events that all
marshal, returns the concatenation of the batches after the events gathered
so far and adds the byte lengths to the size gathered so far. -/
theorem showBatches_ok {σ : Type} (env : Env σ) :
    ∀ (history : List DataBlob) (idx : Nat) (allEvents : List HistoryEvent) (totalSize : Int)
      (s : St σ),
      (∀ b ∈ history, ∃ evs, env.DeserializeBatchEvents b = Except.ok evs) →
      (∀ e ∈ deserializedEvents env history, ∃ js, env.jsonMarshalEvent e = Except.ok js) →
      ∃ evs, showBatches env idx history allEvents totalSize s =
        (Outcome.returned (allEvents ++ deserializedEvents env history,
            totalSize + totalBlobLen history),
          ⟨s.world, s.trace ++ evs⟩)
  | [], idx, allEvents, totalSize, s, _, _ =>
    ⟨[], by simp [showBatches, deserializedEvents, totalBlobLen]⟩
  | b :: rest, idx, allEvents, totalSize, s, hdes, hmar => by
    obtain ⟨batch, hb⟩ := hdes b (List.mem_cons_self _ _)
    rw [deserializedEvents_cons env b rest batch hb] at hmar
    obtain ⟨evs1, h1⟩ := printEvents_ok env batch
      ⟨s.world, s.trace ++ [Event.PrintBatch (idx + 1) b.Data.length]⟩
      (fun e he => hmar e (List.mem_append_left _ he))
    obtain ⟨evs2, h2⟩ := showBatches_ok env rest (idx + 1) (allEvents ++ batch)
      (totalSize + (b.Data.length : Int))
      ⟨s.world, s.trace ++ [Event.PrintBatch (idx + 1) b.Data.length] ++ evs1⟩
      (fun b' hb' => hdes b' (List.mem_cons_of_mem _ hb'))
      (fun e he => hmar e (List.mem_append_right _ he))
    refine ⟨Event.PrintBatch (idx + 1) b.Data.length :: (evs1 ++ evs2), ?_⟩
    simp only [List.append_assoc, List.singleton_append] at h1 h2
    simp [showBatches, hb, M.bind, emit, h1, h2, deserializedEvents_cons env b rest batch hb,
      totalBlobLen_cons, add_assoc]


/-- Whatever the JSON printing does, printing events leaves the rows alone and
prints neither a total nor an export. -/
theorem printEvents_frame {σ : Type} (env : Env σ) :
    ∀ (es : List HistoryEvent) (s : St σ),
      ∃ evs, (printEvents env es s).2 = ⟨s.world, s.trace ++ evs⟩ ∧
        ∀ ev ∈ evs, isSummary ev = false
  | [], s => ⟨[], by simp [printEvents], by simp⟩
  | e :: es, s => by
    rcases hjs : env.jsonMarshalEvent e with err | js
    · exact ⟨[], by simp [printEvents, hjs, ErrorAndExit], by simp⟩
    · obtain ⟨evs, h1, h2⟩ := printEvents_frame env es
        ⟨s.world, s.trace ++ [Event.PrintJSON js]⟩
      refine ⟨Event.PrintJSON js :: evs, ?_, ?_⟩
      · simp [printEvents, hjs, M.bind, emit, h1]
      · intro ev hev
        rcases List.mem_cons.1 hev with rfl | h
        · rfl
        · exact h2 ev h

/-- Whatever the JSON printing does, the batch loop leaves the rows alone and
prints neither a total nor an export; and when it returns, over batches that
all deserialize, it returns the concatenation of the batches after the events
gathered so far and the byte lengths added to the size gathered so far. -/
theorem showBatches_frame {σ : Type} (env : Env σ) :
    ∀ (history : List DataBlob) (idx : Nat) (allEvents : List HistoryEvent) (totalSize : Int)
      (s : St σ),
      (∀ b ∈ history, ∃ evs, env.DeserializeBatchEvents b = Except.ok evs) →
      ∃ evs, (showBatches env idx history allEvents totalSize s).2 =
          ⟨s.world, s.trace ++ evs⟩ ∧
        (∀ ev ∈ evs, isSummary ev = false) ∧
        (∀ v, (showBatches env idx history allEvents totalSize s).1 = Outcome.returned v →
          v = (allEvents ++ deserializedEvents env history,
            totalSize + totalBlobLen history))
  | [], idx, allEvents, totalSize, s, _ =>
    ⟨[], by simp [showBatches], by simp,
      by simp [showBatches, deserializedEvents, totalBlobLen]⟩
  | b :: rest, idx, allEvents, totalSize, s, hdes => by
    obtain ⟨batch, hb⟩ := hdes b (List.mem_cons_self _ _)
    obtain ⟨evs1, hs1, hq1⟩ := printEvents_frame env batch
      ⟨s.world, s.trace ++ [Event.PrintBatch (idx + 1) b.Data.length]⟩
    rcases hp : printEvents env batch
      ⟨s.world, s.trace ++ [Event.PrintBatch (idx + 1) b.Data.length]⟩ with ⟨o, s1⟩
    rw [hp] at hs1
    simp only at hs1
    subst hs1
    have hq0 : ∀ ev ∈ Event.PrintBatch (idx + 1) b.Data.length :: evs1,
        isSummary ev = false := by
      intro ev hev
      rcases List.mem_cons.1 hev with rfl | h
      · rfl
      · exact hq1 ev h
    cases o with
    | exited msg err =>
      exact ⟨_ :: evs1, by simp [showBatches, hb, M.bind, emit, hp], hq0,
        by simp [showBatches, hb, M.bind, emit, hp]⟩
    | panicked what =>
      exact ⟨_ :: evs1, by simp [showBatches, hb, M.bind, emit, hp], hq0,
        by simp [showBatches, hb, M.bind, emit, hp]⟩
    | returned u =>
      obtain ⟨evs2, hs2, hq2, hv2⟩ := showBatches_frame env rest (idx + 1)
        (allEvents ++ batch) (totalSize + (b.Data.length : Int))
        ⟨s.world, s.trace ++ [Event.PrintBatch (idx + 1) b.Data.length] ++ evs1⟩
        (fun b' hb' => hdes b' (List.mem_cons_of_mem _ hb'))
      refine ⟨Event.PrintBatch (idx + 1) b.Data.length :: (evs1 ++ evs2), ?_, ?_, ?_⟩
      · simp only [List.append_assoc, List.singleton_append] at hs2
        simp [showBatches, hb, M.bind, emit, hp, hs2]
      · intro ev hev
        rcases List.mem_cons.1 hev with rfl | h
        · rfl
        · rcases List.mem_append.1 h with h | h
          · exact hq1 ev h
          · exact hq2 ev h
      · intro v hv
        have := hv2 v (by simpa [showBatches, hb, M.bind, emit, hp] using hv)
        rw [this, deserializedEvents_cons env b rest batch hb, totalBlobLen_cons]
        simp [add_assoc]

/-- The second half of the command, on a non-empty list of batches that all
deserialize, whatever the JSON printing and the export do: the value it
returns, the total it prints and the file it writes. -/
theorem showHistory_frame {σ : Type} (env : Env σ) (out : String) (history : List DataBlob)
    (s : St σ) (hne : history ≠ [])
    (hdes : ∀ b ∈ history, ∃ evs, env.DeserializeBatchEvents b = Except.ok evs) :
    (∀ v, (showHistory env out history s).1 = Outcome.returned v →
      v = (deserializedEvents env history, totalBlobLen history)) ∧
    (∀ n total, Event.PrintTotal n total ∈ (showHistory env out history s).2.trace →
      Event.PrintTotal n total ∈ s.trace ∨
        (n = history.length ∧ total = totalBlobLen history)) ∧
    (∀ name data, Event.WriteFile name data ∈ (showHistory env out history s).2.trace →
      Event.WriteFile name data ∈ s.trace ∨
        (name = out ∧
          env.jsonMarshalEvents (deserializedEvents env history) = Except.ok data)) := by
  obtain ⟨evs, hs, hq, hv⟩ := showBatches_frame env history 0 [] 0 s hdes
  have hnp : ∀ n t, Event.PrintTotal n t ∉ evs := fun n t h => by
    simpa [isSummary] using hq _ h
  have hnw : ∀ a b, Event.WriteFile a b ∉ evs := fun a b h => by
    simpa [isSummary] using hq _ h
  rcases hsb : showBatches env 0 history [] 0 s with ⟨o, s1⟩
  rw [hsb] at hs hv
  simp only at hs
  subst hs
  cases o with
  | exited msg err =>
    simp [showHistory, M.bind, hne, hsb, hnp, hnw]
    aesop
  | panicked what =>
    simp [showHistory, M.bind, hne, hsb, hnp, hnw]
    aesop
  | returned v =>
    have hv' := hv v rfl
    simp only [List.nil_append, zero_add] at hv'
    subst hv'
    by_cases hout : out = ""
    · simp [showHistory, M.bind, hne, hsb, hnp, hnw, emit, hout]
      aesop
    · rcases hm : env.jsonMarshalEvents (deserializedEvents env history) with e | data
      · simp [showHistory, M.bind, hne, hsb, hnp, hnw, emit, hout, hm, ErrorAndExit]
      · cases hwf : env.WriteFile out data <;>
          simp [showHistory, M.bind, hne, hsb, hnp, hnw, emit, hout, hm, hwf,
            ErrorAndExit] <;>
          aesop

/-- The second half of the command returns, prints the total and writes the
file it is asked for, when the events print as JSON and the export
succeeds. -/
theorem showHistory_ok {σ : Type} (env : Env σ) (out : String) (history : List DataBlob)
    (s : St σ) (hne : history ≠ [])
    (hdes : ∀ b ∈ history, ∃ evs, env.DeserializeBatchEvents b = Except.ok evs)
    (hmar : ∀ e ∈ deserializedEvents env history,
      ∃ js, env.jsonMarshalEvent e = Except.ok js)
    (hexp : out ≠ "" →
      ∃ data, env.jsonMarshalEvents (deserializedEvents env history) = Except.ok data ∧
        env.WriteFile out data = none) :
    (showHistory env out history s).1 =
      Outcome.returned (deserializedEvents env history, totalBlobLen history) ∧
    Event.PrintTotal history.length (totalBlobLen history) ∈
      (showHistory env out history s).2.trace ∧
    (out ≠ "" →
      ∃ data, env.jsonMarshalEvents (deserializedEvents env history) = Except.ok data ∧
        Event.WriteFile out data ∈ (showHistory env out history s).2.trace) := by
  obtain ⟨evs, hl⟩ := showBatches_ok env history 0 [] 0 s hdes hmar
  simp only [List.nil_append, zero_add] at hl
  by_cases hout : out = ""
  · simp [showHistory, M.bind, hne, hl, emit, hout]
  · obtain ⟨data, hd, hwf⟩ := hexp hout
    simp [showHistory, M.bind, hne, hl, emit, hout, hd, hwf]

/-- C6. When the connection opens and the history store that the flags select
returns a non-empty list of batches that all deserialize, then whatever the
JSON printing and the export do: if `AdminShowWorkflow` returns, its
`allEvents.Events` is the concatenation of the deserialized batches in batch
order and its `totalSize` the sum of the byte lengths of the batches; a total
it prints is that sum, for that number of batches; a file it writes holds the
JSON of that concatenation.  And when the events print as JSON and the export
succeeds, it does return, print the total and, if asked to, write the file. -/
theorem AdminShowWorkflow_history_read {σ : Type} (env : Env σ) (c : Context) (w : σ)
    (cfg : ClusterConfig) (session : Session) (history : List DataBlob)
    (hconn : Connects env c cfg session)
    (hread : ((c.str Flag.WorkflowID).length ≠ 0 ∧
        env.GetWorkflowExecutionHistory w session (c.str Flag.DomainID)
          (c.str Flag.WorkflowID) (c.str Flag.RunID) 1 maxEventID maxEventID
          = Except.ok history) ∨
      ((c.str Flag.WorkflowID).length = 0 ∧ (c.str Flag.TreeID).length ≠ 0 ∧
        env.ReadHistoryBranch w session (c.str Flag.TreeID) (c.str Flag.BranchID) 1
          maxEventID maxEventID = Except.ok history))
    (hne : history ≠ [])
    (hdes : ∀ b ∈ history, ∃ evs, env.DeserializeBatchEvents b = Except.ok evs) :
    (∀ v, (run (AdminShowWorkflow env c) w).1 = Outcome.returned v →
      v = (deserializedEvents env history, totalBlobLen history)) ∧
    (∀ n total, Event.PrintTotal n total ∈ (run (AdminShowWorkflow env c) w).2.trace →
      n = history.length ∧ total = totalBlobLen history) ∧
    (∀ name data, Event.WriteFile name data ∈ (run (AdminShowWorkflow env c) w).2.trace →
      name = c.str Flag.OutputFilename ∧
        env.jsonMarshalEvents (deserializedEvents env history) = Except.ok data) ∧
    ((∀ e ∈ deserializedEvents env history, ∃ js, env.jsonMarshalEvent e = Except.ok js) →
      (c.str Flag.OutputFilename ≠ "" →
        ∃ data, env.jsonMarshalEvents (deserializedEvents env history) = Except.ok data ∧
          env.WriteFile (c.str Flag.OutputFilename) data = none) →
      (run (AdminShowWorkflow env c) w).1 =
          Outcome.returned (deserializedEvents env history, totalBlobLen history) ∧
        Event.PrintTotal history.length (totalBlobLen history) ∈
          (run (AdminShowWorkflow env c) w).2.trace ∧
        (c.str Flag.OutputFilename ≠ "" →
          ∃ data, env.jsonMarshalEvents (deserializedEvents env history) = Except.ok data ∧
            Event.WriteFile (c.str Flag.OutputFilename) data ∈
              (run (AdminShowWorkflow env c) w).2.trace)) := by
  obtain ⟨pre, hpre, hrun⟩ : ∃ pre : List Event, (∀ ev ∈ pre, isSummary ev = false) ∧
      run (AdminShowWorkflow env c) w =
        showHistory env (c.str Flag.OutputFilename) history ⟨w, pre⟩ := by
    rcases hread with ⟨hw, hr⟩ | ⟨hw, ht, hr⟩
    · refine ⟨connectEvents c cfg ++ [Event.GetWorkflowExecutionHistory
        (c.str Flag.DomainID) (c.str Flag.WorkflowID) (c.str Flag.RunID)], ?_, ?_⟩
      · simp [connectEvents, isSummary]
      · simp [run, AdminShowWorkflow, M.bind, connectToCassandra_ok hconn, hw, hr, emit,
          getWorld]
    · refine ⟨connectEvents c cfg ++ [Event.ReadHistoryBranch (c.str Flag.TreeID)
        (c.str Flag.BranchID)], ?_, ?_⟩
      · simp [connectEvents, isSummary]
      · simp [run, AdminShowWorkflow, M.bind, connectToCassandra_ok hconn, hw, ht, hr, emit,
          getWorld]
  have hf := showHistory_frame env (c.str Flag.OutputFilename) history ⟨w, pre⟩ hne hdes
  rw [hrun]
  refine ⟨hf.1, ?_, ?_, ?_⟩
  · intro n total h
    rcases hf.2.1 n total h with h1 | h1
    · exact absurd (hpre _ h1) (by simp [isSummary])
    · exact h1
  · intro name data h
    rcases hf.2.2 name data h with h1 | h1
    · exact absurd (hpre _ h1) (by simp [isSummary])
    · exact h1
  · intro hmar hexp
    exact showHistory_ok env (c.str Flag.OutputFilename) history ⟨w, pre⟩ hne hdes hmar hexp

/-- The witness of C6: the scenario of the spec, three batches holding the
events 1..7 of `wf-1`/`r1` in domain `d1`, read from the V1 store. -/
theorem AdminShowWorkflow_history_read_witness :
    demoHistory ≠ [] ∧
    (deserializedEvents (demoEnv "3" demoV1Doc false false false) demoHistory).map
        HistoryEvent.EventId = [1, 2, 3, 4, 5, 6, 7] ∧
    totalBlobLen demoHistory = 7 ∧
    (run (AdminShowWorkflow (demoEnv "3" demoV1Doc false false false) (showCtx "wf-1" ""))
        demoRows).1 =
      Outcome.returned
        (deserializedEvents (demoEnv "3" demoV1Doc false false false) demoHistory,
          totalBlobLen demoHistory) ∧
    Event.PrintTotal demoHistory.length (totalBlobLen demoHistory) ∈
      (run (AdminShowWorkflow (demoEnv "3" demoV1Doc false false false) (showCtx "wf-1" ""))
        demoRows).2.trace :=
  have h := (AdminShowWorkflow_history_read (demoEnv "3" demoV1Doc false false false)
    (showCtx "wf-1" "") demoRows demoCfg demoSession demoHistory
    ⟨by decide, rfl, by decide, rfl, rfl⟩ (Or.inl ⟨by decide, rfl⟩) (by decide)
    (by
      intro b hb
      simp only [demoHistory, List.mem_cons, List.mem_singleton, List.not_mem_nil,
        or_false] at hb
      rcases hb with rfl | rfl | rfl <;> exact ⟨_, rfl⟩)).2.2.2
    (fun e _ => ⟨e.payload, rfl⟩) (fun hout => absurd rfl hout)
  ⟨by decide, by decide, by decide, h.1, h.2.1⟩

/-- The counterexample to C9: with neither a workflow id nor a tree id, the
command does end with the configuration error, but the storage connection has
been opened before: the cluster configuration was built and the session
created. -/
theorem AdminShowWorkflow_connects_before_rejecting :
    (showCtx "" "").str Flag.WorkflowID = "" ∧ (showCtx "" "").str Flag.TreeID = "" ∧
    (run (AdminShowWorkflow (demoEnv "3" demoV1Doc false false false) (showCtx "" ""))
        demoRows).1 =
      Outcome.exited
        "need to specify either WorkflowId/RunID for v1, or TreeID/BranchID for v2" none ∧
    (run (AdminShowWorkflow (demoEnv "3" demoV1Doc false false false) (showCtx "" ""))
        demoRows).2.trace =
      [Event.NewCassandraCluster "127.0.0.1" 9042 "" "" "cadence",
        Event.CreateSession demoSession.cluster] ∧
    (run (AdminShowWorkflow (demoEnv "3" demoV1Doc false false false) (showCtx "" ""))
        demoRows).2.trace.any isStorageCall = true := by
  decide

/-- C9, as amended. When neither a workflow id nor a tree id is supplied,
`AdminShowWorkflow` never returns normally, issues no read of a history
store and leaves the rows alone; the storage connection is opened first, and
once it has opened the command fails with the configuration error asking for
the identifiers. -/
theorem AdminShowWorkflow_missing_identifiers {σ : Type} (env : Env σ) (c : Context) (w : σ)
    (hw : (c.str Flag.WorkflowID).length = 0) (ht : (c.str Flag.TreeID).length = 0) :
    (∀ ev ∈ (run (AdminShowWorkflow env c) w).2.trace, isHistoryRead ev = false) ∧
    (run (AdminShowWorkflow env c) w).2.world = w ∧
    (∀ v, (run (AdminShowWorkflow env c) w).1 ≠ Outcome.returned v) ∧
    (∀ cfg session, Connects env c cfg session →
      run (AdminShowWorkflow env c) w =
        (Outcome.exited
            "need to specify either WorkflowId/RunID for v1, or TreeID/BranchID for v2" none,
          ⟨w, connectEvents c cfg⟩)) := by
  refine ⟨?_, ?_, ?_, ?_⟩
  · obtain ⟨evs, hs, hq, -⟩ := connectToCassandra_frame env c ⟨w, []⟩
    rcases hc : connectToCassandra env c ⟨w, []⟩ with ⟨o, s1⟩
    rw [hc] at hs
    simp only [List.nil_append] at hs
    subst hs
    cases o <;>
      simp [run, AdminShowWorkflow, M.bind, hc, hw, ht, ErrorAndExit] <;>
      exact fun ev hev => (hq ev hev).2
  · obtain ⟨evs, hs, -, -⟩ := connectToCassandra_frame env c ⟨w, []⟩
    rcases hc : connectToCassandra env c ⟨w, []⟩ with ⟨o, s1⟩
    rw [hc] at hs
    simp only [List.nil_append] at hs
    subst hs
    cases o <;> simp [run, AdminShowWorkflow, M.bind, hc, hw, ht, ErrorAndExit]
  · intro v
    rcases hc : connectToCassandra env c ⟨w, []⟩ with ⟨o, s1⟩
    cases o <;> simp [run, AdminShowWorkflow, M.bind, hc, hw, ht, ErrorAndExit]
  · intro cfg session hconn
    simp [run, AdminShowWorkflow, M.bind, connectToCassandra_ok hconn, hw, ht, ErrorAndExit]

/-- The witness of C9 as amended: no identifiers, a cluster that can be
reached. -/
theorem AdminShowWorkflow_missing_identifiers_witness :
    ((showCtx "" "").str Flag.WorkflowID).length = 0 ∧
    ((showCtx "" "").str Flag.TreeID).length = 0 ∧
    (∀ ev ∈ (run (AdminShowWorkflow (demoEnv "3" demoV1Doc false false false)
        (showCtx "" "")) demoRows).2.trace, isHistoryRead ev = false) ∧
    run (AdminShowWorkflow (demoEnv "3" demoV1Doc false false false) (showCtx "" ""))
        demoRows =
      (Outcome.exited
          "need to specify either WorkflowId/RunID for v1, or TreeID/BranchID for v2" none,
        ⟨demoRows, connectEvents (showCtx "" "") demoCfg⟩) :=
  have h := AdminShowWorkflow_missing_identifiers (demoEnv "3" demoV1Doc false false false)
    (showCtx "" "") demoRows (by decide) (by decide)
  ⟨by decide, by decide, h.1, h.2.2.2 demoCfg demoSession
    ⟨by decide, rfl, by decide, rfl, rfl⟩⟩

/-! ## `AdminGetShardID` -/

theorem AdminGetShardID_ok {σ : Type} (env : Env σ) (c : Context) (s : St σ)
    (hw : (c.str Flag.WorkflowID).length ≠ 0) (hn : 0 < c.int Flag.NumberOfShards) :
    AdminGetShardID env c s =
      (Outcome.returned (), { s with trace := s.trace ++
        [Event.WorkflowIDToHistoryShard (c.str Flag.WorkflowID) (c.int Flag.NumberOfShards),
         Event.PrintShardID (c.str Flag.WorkflowID)
           (WorkflowIDToHistoryShard env.hash (c.str Flag.WorkflowID)
             (c.int Flag.NumberOfShards))] }) := by
  have hn2 : ¬ c.int Flag.NumberOfShards ≤ 0 := by omega
  simp [AdminGetShardID, getRequiredOption, hw, hn2, M.bind, M.pure, emit]

theorem AdminGetShardID_reject {σ : Type} (env : Env σ) (c : Context) (s : St σ)
    (hw : (c.str Flag.WorkflowID).length ≠ 0) (hn : c.int Flag.NumberOfShards ≤ 0) :
    AdminGetShardID env c s = (Outcome.exited "numberOfShards is required" none, s) := by
  simp [AdminGetShardID, getRequiredOption, hw, hn, M.bind, M.pure, ErrorAndExit]

/-- C7. For every workflow id `w` and every number of shards `N > 0`,
`AdminGetShardID` calls the shard router once and reports a shard id `s` with
`0 ≤ s < N`; any other invocation with the same `(w, N)`, whatever its other
flags and whatever the rows, reports the same `s`. -/
theorem AdminGetShardID_shard_in_range {σ : Type} (env : Env σ) (c : Context) (w : σ)
    (hw : (c.str Flag.WorkflowID).length ≠ 0) (hn : 0 < c.int Flag.NumberOfShards) :
    ∃ s : Int, 0 ≤ s ∧ s < c.int Flag.NumberOfShards ∧
      s = WorkflowIDToHistoryShard env.hash (c.str Flag.WorkflowID)
        (c.int Flag.NumberOfShards) ∧
      run (AdminGetShardID env c) w =
        (Outcome.returned (), ⟨w,
          [Event.WorkflowIDToHistoryShard (c.str Flag.WorkflowID) (c.int Flag.NumberOfShards),
           Event.PrintShardID (c.str Flag.WorkflowID) s]⟩) ∧
      ∀ (c2 : Context) (w2 : σ), c2.str Flag.WorkflowID = c.str Flag.WorkflowID →
        c2.int Flag.NumberOfShards = c.int Flag.NumberOfShards →
        run (AdminGetShardID env c2) w2 =
          (Outcome.returned (), ⟨w2,
            [Event.WorkflowIDToHistoryShard (c.str Flag.WorkflowID)
               (c.int Flag.NumberOfShards),
             Event.PrintShardID (c.str Flag.WorkflowID) s]⟩) := by
  refine ⟨_, ?_, ?_, rfl, ?_, ?_⟩
  · exact Int.emod_nonneg _ (by omega)
  · exact Int.emod_lt_of_pos _ hn
  · simp [run, AdminGetShardID_ok env c _ hw hn]
  · intro c2 w2 h1 h2
    have hw2 : (c2.str Flag.WorkflowID).length ≠ 0 := by rw [h1]; exact hw
    have hn2 : 0 < c2.int Flag.NumberOfShards := by rw [h2]; exact hn
    simp [run, AdminGetShardID_ok env c2 _ hw2 hn2, h1, h2]

/-- The witness of C7: 16 shards and workflow id `abc`. -/
theorem AdminGetShardID_shard_in_range_witness :
    ∃ s : Int, 0 ≤ s ∧ s < 16 ∧
      s = WorkflowIDToHistoryShard (demoEnv "3" demoV1Doc false false false).hash "abc" 16 ∧
      run (AdminGetShardID (demoEnv "3" demoV1Doc false false false) (shardCtx "abc" 16))
          (⟨true, true, true⟩ : Rows) =
        (Outcome.returned (), ⟨⟨true, true, true⟩,
          [Event.WorkflowIDToHistoryShard "abc" 16, Event.PrintShardID "abc" s]⟩) ∧
      ∀ (c2 : Context) (w2 : Rows), c2.str Flag.WorkflowID = "abc" →
        c2.int Flag.NumberOfShards = 16 →
        run (AdminGetShardID (demoEnv "3" demoV1Doc false false false) c2) w2 =
          (Outcome.returned (), ⟨w2,
            [Event.WorkflowIDToHistoryShard "abc" 16, Event.PrintShardID "abc" s]⟩) :=
  AdminGetShardID_shard_in_range (demoEnv "3" demoV1Doc false false false)
    (shardCtx "abc" 16) ⟨true, true, true⟩ (by decide) (by decide)

/-- C8. For every supplied workflow id, `AdminGetShardID` ends in
`ErrorAndExit` exactly when `numberOfShards ≤ 0`; the exit is then the
configuration error "numberOfShards is required", and the trace is empty: the
shard router was not called and no shard id was printed. -/
theorem AdminGetShardID_rejects_invalid_shard_count {σ : Type} (env : Env σ) (c : Context)
    (w : σ) (hw : (c.str Flag.WorkflowID).length ≠ 0) :
    ((∃ msg err, (run (AdminGetShardID env c) w).1 = Outcome.exited msg err) ↔
        c.int Flag.NumberOfShards ≤ 0) ∧
      (c.int Flag.NumberOfShards ≤ 0 →
        run (AdminGetShardID env c) w =
          (Outcome.exited "numberOfShards is required" none, ⟨w, []⟩)) := by
  constructor
  · constructor
    · rintro ⟨msg, err, h⟩
      by_contra hn
      rw [run, AdminGetShardID_ok env c _ hw (by omega)] at h
      cases h
    · intro hn
      exact ⟨_, _, by rw [run, AdminGetShardID_reject env c _ hw hn]⟩
  · intro hn
    rw [run, AdminGetShardID_reject env c _ hw hn]

/-- The witness of C8: workflow id `abc` with zero shards. -/
theorem AdminGetShardID_rejects_invalid_shard_count_witness :
    ((∃ msg err, (run (AdminGetShardID (demoEnv "3" demoV1Doc false false false)
          (shardCtx "abc" 0)) (⟨true, true, true⟩ : Rows)).1 = Outcome.exited msg err) ↔
        (shardCtx "abc" 0).int Flag.NumberOfShards ≤ 0) ∧
      ((shardCtx "abc" 0).int Flag.NumberOfShards ≤ 0 →
        run (AdminGetShardID (demoEnv "3" demoV1Doc false false false) (shardCtx "abc" 0))
            (⟨true, true, true⟩ : Rows) =
          (Outcome.exited "numberOfShards is required" none, ⟨⟨true, true, true⟩, []⟩)) :=
  AdminGetShardID_rejects_invalid_shard_count (demoEnv "3" demoV1Doc false false false)
    (shardCtx "abc" 0) ⟨true, true, true⟩ (by decide)

end Cadence
